import Mathlib

/-!
Verification of the cubby-remote-reaper core components: the reabank
text parsers, the bank-name hierarchy classifier, the selection and
search index, and the Reaper project file generator.  Definitions are
shallow embeddings of the TypeScript source files
(src/lib/reabankParser.ts, src/app/api/reabanks/route.ts,
src/app/template-builder/page.tsx, src/lib/rppGenerator.ts).
-/

set_option maxRecDepth 8000

/-! ## JavaScript string primitives -/

/-- Whitespace set used by the JavaScript regular expression class \s
and by String.prototype.trim (restricted to the ASCII range; the bank
files are ASCII). -/
def isJsWs (c : Char) : Bool :=
  c = ' ' || c = '\t' || c = '\n' || c = '\r' || c = '\x0b' || c = '\x0c'

/-- JavaScript String.prototype.trim on a list of characters. -/
def jsTrimL (s : List Char) : List Char :=
  (s.dropWhile isJsWs).reverse.dropWhile isJsWs |>.reverse

/-- JavaScript String.prototype.trim. -/
def jsTrim (s : String) : String := ⟨jsTrimL s.data⟩

/-- JavaScript String.prototype.toLowerCase (ASCII range). -/
def lowerStr (s : String) : String := ⟨s.data.map Char.toLower⟩

/-- Substring test: does the haystack contain the needle as a
contiguous run, as JavaScript String.prototype.includes decides. -/
def containsL (hay needle : List Char) : Bool :=
  decide (needle <:+: hay)

/-- JavaScript String.prototype.includes. -/
def strIncludes (hay needle : String) : Bool := containsL hay.data needle.data

/-- Accumulator pass collecting maximal runs of non-whitespace
characters; the accumulator holds the current run reversed. -/
def wordsAux : List Char → List Char → List (List Char)
  | [], [] => []
  | [], acc => [acc.reverse]
  | c :: cs, acc =>
    if isJsWs c then
      match acc with
      | [] => wordsAux cs []
      | _ => acc.reverse :: wordsAux cs []
    else wordsAux cs (c :: acc)

/-- Maximal runs of non-whitespace characters, in order.  This is the
composite of JavaScript String.prototype.split on the regular
expression matching whitespace runs followed by filter Boolean: the
split yields the non-whitespace fragments plus possibly empty
fragments at the two ends, and the filter drops the empty ones. -/
def wordsL (l : List Char) : List (List Char) := wordsAux l []

/-- Whitespace separated terms of a string. -/
def wsTerms (s : String) : List String := (wordsL s.data).map String.mk

/-- Split a character list at every occurrence of a separator
character; the JavaScript String.prototype.split semantics for a
one-character separator, including empty fragments. -/
def splitChar (sep : Char) : List Char → List (List Char)
  | [] => [[]]
  | c :: rest =>
    if c = sep then [] :: splitChar sep rest
    else
      match splitChar sep rest with
      | h :: t => (c :: h) :: t
      | [] => [[c]]

/-- JavaScript String.prototype.split on '\n', used by both parsers. -/
def splitLines (s : String) : List String := (splitChar '\n' s.data).map List.asString

/-- JavaScript String.prototype.startsWith. -/
def strStartsWith (s pre : String) : Bool := pre.data.isPrefixOf s.data

/-- JavaScript number values that arise from parseInt: either an
integer or NaN. -/
inductive JSNum where
  | num (n : Int)
  | nan
deriving DecidableEq, Repr

/-- Decimal rendering of a JavaScript number inside a template
literal. -/
def JSNum.render : JSNum → String
  | .num n => toString n
  | .nan => "NaN"

/-- Value of a run of decimal digit characters. -/
def digitsVal (l : List Char) : Nat :=
  l.foldl (fun n c => n * 10 + (c.toNat - 48)) 0

/-- JavaScript parseInt with radix 10: optional sign, then the longest
leading run of decimal digits; NaN when that run is empty. -/
def jsParseInt (s : String) : JSNum :=
  let (sign, rest) :=
    match s.data with
    | '-' :: r => ((-1 : Int), r)
    | '+' :: r => ((1 : Int), r)
    | r => ((1 : Int), r)
  let digits := rest.takeWhile Char.isDigit
  if digits = [] then .nan
  else .num (sign * (digitsVal digits : Int))

/-! ## Data model of the reabank parser (src/lib/reabankParser.ts) -/

structure MidiMessage where
  status : Nat
  data1 : JSNum
  data2 : JSNum
deriving DecidableEq, Repr

structure Articulation where
  id : String
  number : Nat
  name : String
  shortName : String
  description : String
  color : Nat
  group : Nat
  icon : Option String
  output : Option String
  articulationType : Nat
  midiMessages : List MidiMessage
  keySwitch : Option JSNum
deriving DecidableEq, Repr

structure ArticulationSet where
  name : String
  fileName : String
  msb : JSNum
  lsb : JSNum
  articulations : List Articulation
deriving DecidableEq, Repr

/-- Result of parseReabankFile: the bank list and the error list (the
source also reports a wall-clock parse time, which is outside this
embedding). -/
structure ParsedReabank where
  banks : List ArticulationSet
  errors : List String
deriving DecidableEq, Repr

/-! ## searchBanks (src/lib/reabankParser.ts lines 326 to 336) -/

/-- Search banks by name: an empty or whitespace-only query returns the
input list; otherwise the query is lowercased, split into whitespace
separated terms, and a bank is kept when its lowercased name contains
every term. -/
def searchBanks (banks : List ArticulationSet) (query : String) : List ArticulationSet :=
  if jsTrim query = "" then banks
  else
    let lowerQuery := lowerStr query
    let terms := wsTerms lowerQuery
    banks.filter (fun bank =>
      let searchText := lowerStr bank.name
      terms.all (fun term => strIncludes searchText term))

/-- Terms a query contributes: the whitespace separated fragments of
its lowercased text. -/
def queryTerms (query : String) : List String := wsTerms (lowerStr query)

theorem containsL_infix_iff (hay needle : List Char) :
    containsL hay needle = true ↔ needle <:+: hay := by
  simp [containsL]

theorem isJsWs_toLower {c : Char} (h : isJsWs c = true) : Char.toLower c = c := by
  simp only [isJsWs, Bool.or_eq_true, decide_eq_true_eq] at h
  rcases h with ((((h | h) | h) | h) | h) | h <;> subst h <;> decide

theorem jsTrim_empty_all_ws {q : String} (h : jsTrim q = "") :
    ∀ c ∈ q.data, isJsWs c = true := by
  have hdata : jsTrimL q.data = [] := congrArg String.data h
  unfold jsTrimL at hdata
  have h2 : (q.data.dropWhile isJsWs).reverse.dropWhile isJsWs = [] := by
    have := congrArg List.reverse hdata
    simpa using this
  have h3 : ∀ c ∈ (q.data.dropWhile isJsWs).reverse, isJsWs c = true :=
    fun c hc => List.dropWhile_eq_nil_iff.mp h2 c hc
  intro c hc
  rcases List.takeWhile_append_dropWhile (p := isJsWs) (l := q.data) ▸ hc with h4
  rw [← List.takeWhile_append_dropWhile (p := isJsWs) (l := q.data)] at hc
  rcases List.mem_append.mp hc with hl | hr
  · exact List.mem_takeWhile_imp hl
  · exact h3 c (List.mem_reverse.mpr hr)

theorem wordsL_all_ws {l : List Char} (h : ∀ c ∈ l, isJsWs c = true) :
    wordsL l = [] := by
  unfold wordsL
  induction l with
  | nil => rfl
  | cons c cs ih =>
    have hc := h c (List.mem_cons_self c cs)
    rw [wordsAux, if_pos hc]
    exact ih (fun d hd => h d (List.mem_cons_of_mem c hd))

theorem queryTerms_ws_empty {q : String} (h : jsTrim q = "") : queryTerms q = [] := by
  unfold queryTerms wsTerms lowerStr
  have : ∀ c ∈ q.data.map Char.toLower, isJsWs c = true := by
    intro c hc
    rcases List.mem_map.mp hc with ⟨d, hd, rfl⟩
    have hw := jsTrim_empty_all_ws h d hd
    rw [isJsWs_toLower hw]
    exact hw
  simp [wordsL_all_ws this]

/-- Claim C7: searchBanks splits the query on whitespace into terms and
returns exactly those banks whose name case-insensitively contains
every term, with AND semantics; an empty or whitespace-only query
returns the input list unchanged, order preserved, not the empty set. -/
theorem searchBanks_spec (banks : List ArticulationSet) (query : String) :
    (jsTrim query = "" → searchBanks banks query = banks) ∧
    (jsTrim query ≠ "" →
      searchBanks banks query = banks.filter (fun bank =>
        (queryTerms query).all (fun term => strIncludes (lowerStr bank.name) term))) ∧
    (∀ b, b ∈ searchBanks banks query ↔
      b ∈ banks ∧ ∀ t ∈ queryTerms query, t.data <:+: (lowerStr b.name).data) := by
  refine ⟨fun h => by simp [searchBanks, h],
          fun h => by simp [searchBanks, h, queryTerms], ?_⟩
  intro b
  by_cases h : jsTrim query = ""
  · rw [queryTerms_ws_empty h]
    simp [searchBanks, h]
  · simp only [searchBanks, if_neg h]
    constructor
    · intro hb
      have hmem := List.mem_filter.mp hb
      refine ⟨hmem.1, ?_⟩
      intro t ht
      have hall := hmem.2
      rw [List.all_eq_true] at hall
      have := hall t (by simpa [queryTerms] using ht)
      exact (containsL_infix_iff _ _).mp this
    · intro ⟨hb, hterms⟩
      refine List.mem_filter.mpr ⟨hb, ?_⟩
      rw [List.all_eq_true]
      intro t ht
      exact (containsL_infix_iff _ _).mpr (hterms t (by simpa [queryTerms] using ht))

/-- Witness for C7 at concrete inputs: a two-bank list searched with a
two-term query keeps exactly the bank matching both terms, and a
whitespace-only query returns the list unchanged. -/
theorem searchBanks_spec_witness :
    (searchBanks
      [⟨"Solo Violin Long", "f1", .num 1, .num 0, []⟩,
       ⟨"Solo Viola Long", "f2", .num 2, .num 0, []⟩] "violin long" =
      [⟨"Solo Violin Long", "f1", .num 1, .num 0, []⟩]) ∧
    (searchBanks [⟨"A", "f", .num 3, .num 1, []⟩] "  " =
      [⟨"A", "f", .num 3, .num 1, []⟩]) := by
  constructor
  · have h := (searchBanks_spec
      [⟨"Solo Violin Long", "f1", .num 1, .num 0, []⟩,
       ⟨"Solo Viola Long", "f2", .num 2, .num 0, []⟩] "violin long").2.1
    rw [h (by decide)]
    decide
  · exact (searchBanks_spec [⟨"A", "f", .num 3, .num 1, []⟩] "  ").1 (by decide)

/-! ## Folder tree and selection state (src/app/template-builder/page.tsx) -/

/-- Folder tree node: a name, a slash-joined path, the banks directly at
this level, and the named subfolders in insertion order. -/
inductive FolderNode where
  | node (name : String) (path : String) (banks : List ArticulationSet)
      (subfolders : List (String × FolderNode))

/-- Selection identity key of a bank (page.tsx line 530). -/
def getBankKey (bank : ArticulationSet) : String :=
  bank.msb.render ++ "-" ++ bank.lsb.render

mutual
/-- Recursively collect every bank under a node: the banks at this
level followed by the collections of each subfolder in order
(page.tsx lines 540 to 546); the helper walks the subfolder list as
the forEach loop does. -/
def getAllBanksInFolder : FolderNode → List ArticulationSet
  | .node _ _ banks subs => banks ++ getAllBanksInSubs subs
def getAllBanksInSubs : List (String × FolderNode) → List ArticulationSet
  | [] => []
  | (_, f) :: rest => getAllBanksInFolder f ++ getAllBanksInSubs rest
end

/-- Tri-state selection summary of a folder. -/
inductive SelState where
  | selNone
  | selSome
  | selAll
deriving DecidableEq, Repr

/-- Folder selection state (page.tsx lines 548 to 555): none when the
folder is empty or no collected bank is selected, all when every
collected bank is selected, some otherwise. -/
def getFolderState (selectedBanks : Finset String) (node : FolderNode) : SelState :=
  let allBanksInNode := getAllBanksInFolder node
  if allBanksInNode.length = 0 then .selNone
  else
    let selectedCount :=
      (allBanksInNode.filter (fun b => getBankKey b ∈ selectedBanks)).length
    if selectedCount = 0 then .selNone
    else if selectedCount = allBanksInNode.length then .selAll
    else .selSome

/-- Folder toggle (page.tsx lines 557 to 569): when the current state is
all, every collected bank key is removed from the selection; otherwise
every collected bank key is added. -/
def toggleFolder (selectedBanks : Finset String) (node : FolderNode) : Finset String :=
  let state := getFolderState selectedBanks node
  let allBanksInNode := getAllBanksInFolder node
  if state = .selAll then
    allBanksInNode.foldl (fun s b => s.erase (getBankKey b)) selectedBanks
  else
    allBanksInNode.foldl (fun s b => insert (getBankKey b) s) selectedBanks

theorem getAllBanksInSubs_eq (subs : List (String × FolderNode)) :
    getAllBanksInSubs subs = subs.flatMap (fun p => getAllBanksInFolder p.2) := by
  induction subs with
  | nil => rfl
  | cons p rest ih =>
    obtain ⟨nm, f⟩ := p
    rw [getAllBanksInSubs, ih]
    rfl

theorem getAllBanksInFolder_eq (name path : String) (banks : List ArticulationSet)
    (subs : List (String × FolderNode)) :
    getAllBanksInFolder (.node name path banks subs) =
      banks ++ subs.flatMap (fun p => getAllBanksInFolder p.2) := by
  rw [getAllBanksInFolder, getAllBanksInSubs_eq]


theorem getFolderState_char (sel : Finset String) (node : FolderNode) :
    getFolderState sel node =
      (if ((getAllBanksInFolder node).filter
            (fun b => getBankKey b ∈ sel)).length = 0 then .selNone
       else if ((getAllBanksInFolder node).filter
            (fun b => getBankKey b ∈ sel)).length = (getAllBanksInFolder node).length then .selAll
       else .selSome) := by
  unfold getFolderState
  by_cases h0 : (getAllBanksInFolder node).length = 0
  · have hnil : getAllBanksInFolder node = [] := List.length_eq_zero.mp h0
    simp [hnil]
  · simp [h0]

theorem filter_length_le_banks (sel : Finset String) (l : List ArticulationSet) :
    (l.filter (fun b => getBankKey b ∈ sel)).length ≤ l.length :=
  List.length_filter_le _ l

theorem foldl_insert_keys (l : List ArticulationSet) (s : Finset String) :
    l.foldl (fun s b => insert (getBankKey b) s) s = s ∪ (l.map getBankKey).toFinset := by
  induction l generalizing s with
  | nil => simp
  | cons a t ih =>
    rw [List.foldl_cons, ih]
    ext x
    simp

theorem foldl_erase_keys (l : List ArticulationSet) (s : Finset String) :
    l.foldl (fun s b => s.erase (getBankKey b)) s = s \ (l.map getBankKey).toFinset := by
  induction l generalizing s with
  | nil => simp
  | cons a t ih =>
    rw [List.foldl_cons, ih]
    ext x
    simp
    tauto

/-- Claim C8: for every FolderNode of arbitrary nesting depth and every
selection key set, getFolderState returns selNone exactly when zero of
the banks collected recursively from the node and its descendants are
selected, selAll exactly when the selected count equals the total and
the node has at least one descendant bank, and selSome exactly
otherwise; the count ranges over leaves across all descendant folders,
as the recursion equation in the last conjunct records. -/
theorem getFolderState_spec (node : FolderNode) (sel : Finset String) :
    (getFolderState sel node = .selNone ↔
      ((getAllBanksInFolder node).filter (fun b => getBankKey b ∈ sel)).length = 0) ∧
    (getFolderState sel node = .selAll ↔
      (((getAllBanksInFolder node).filter (fun b => getBankKey b ∈ sel)).length =
          (getAllBanksInFolder node).length ∧ getAllBanksInFolder node ≠ [])) ∧
    (getFolderState sel node = .selSome ↔
      (0 < ((getAllBanksInFolder node).filter (fun b => getBankKey b ∈ sel)).length ∧
        ((getAllBanksInFolder node).filter (fun b => getBankKey b ∈ sel)).length <
          (getAllBanksInFolder node).length)) ∧
    (∀ name path banks subs,
      getAllBanksInFolder (.node name path banks subs) =
        banks ++ subs.flatMap (fun p => getAllBanksInFolder p.2)) := by
  have hle := filter_length_le_banks sel (getAllBanksInFolder node)
  have key := getFolderState_char sel node
  refine ⟨?_, ?_, ?_, fun n p b s => getAllBanksInFolder_eq n p b s⟩ <;> rw [key]
  · split_ifs with h1 h2 <;> simp [h1]
  · split_ifs with h1 h2
    · simp only [reduceCtorEq, false_iff]
      rintro ⟨hnm, hne⟩
      exact hne (List.length_eq_zero.mp (by omega))
    · simp only [true_iff]
      refine ⟨h2, fun hnil => h1 ?_⟩
      have : (getAllBanksInFolder node).length = 0 := by rw [hnil]; rfl
      omega
    · simp only [reduceCtorEq, false_iff]
      rintro ⟨hnm, _⟩
      exact h2 hnm
  · split_ifs with h1 h2
    · simp only [reduceCtorEq, false_iff]
      rintro ⟨hpos, _⟩
      omega
    · simp only [reduceCtorEq, false_iff]
      rintro ⟨_, hlt⟩
      omega
    · simp only [true_iff]
      exact ⟨Nat.pos_of_ne_zero h1, Nat.lt_of_le_of_ne hle h2⟩

/-- Witness for C8 at a concrete two-level tree: with one of the two
leaf banks selected the folder state is selSome. -/
theorem getFolderState_spec_witness :
    getFolderState {"1-0"} (.node "Root" "" [⟨"A", "f", .num 1, .num 0, []⟩]
      [("Sub", .node "Sub" "Sub" [⟨"B", "g", .num 2, .num 0, []⟩] [])]) = .selSome := by
  have h := (getFolderState_spec (.node "Root" "" [⟨"A", "f", .num 1, .num 0, []⟩]
      [("Sub", .node "Sub" "Sub" [⟨"B", "g", .num 2, .num 0, []⟩] [])]) {"1-0"}).2.2.1
  exact h.mpr (by decide)

/-- Claim C9: toggleFolder removes every descendant bank key from the
selection when the folder state is selAll, and adds every descendant
bank key otherwise; hence toggling a partially selected non-empty
folder leaves it fully selected, and keys different from every
descendant bank key are neither added nor removed. -/
theorem toggleFolder_spec (node : FolderNode) (sel : Finset String) :
    (getFolderState sel node = .selAll →
      toggleFolder sel node = sel \ ((getAllBanksInFolder node).map getBankKey).toFinset) ∧
    (getFolderState sel node ≠ .selAll →
      toggleFolder sel node = sel ∪ ((getAllBanksInFolder node).map getBankKey).toFinset) ∧
    (getFolderState sel node = .selSome →
      getFolderState (toggleFolder sel node) node = .selAll) ∧
    (∀ k, k ∉ (getAllBanksInFolder node).map getBankKey →
      (k ∈ toggleFolder sel node ↔ k ∈ sel)) := by
  have hall : getFolderState sel node = .selAll →
      toggleFolder sel node = sel \ ((getAllBanksInFolder node).map getBankKey).toFinset := by
    intro h
    simp only [toggleFolder]
    rw [if_pos h]
    exact foldl_erase_keys _ _
  have hother : getFolderState sel node ≠ .selAll →
      toggleFolder sel node = sel ∪ ((getAllBanksInFolder node).map getBankKey).toFinset := by
    intro h
    simp only [toggleFolder]
    rw [if_neg h]
    exact foldl_insert_keys _ _
  refine ⟨hall, hother, ?_, ?_⟩
  · intro h
    have hne : getAllBanksInFolder node ≠ [] := by
      intro hnil
      rw [getFolderState_char, hnil] at h
      simp at h
    have hstate : getFolderState sel node ≠ .selAll := by
      rw [h]
      simp
    rw [hother hstate, getFolderState_char]
    have hfil : (getAllBanksInFolder node).filter
        (fun b => getBankKey b ∈ sel ∪ ((getAllBanksInFolder node).map getBankKey).toFinset) =
        getAllBanksInFolder node := by
      apply List.filter_eq_self.mpr
      intro b hb
      simp only [Finset.mem_union, List.mem_toFinset, decide_eq_true_eq]
      exact Or.inr (List.mem_map_of_mem getBankKey hb)
    rw [hfil]
    have hm : (getAllBanksInFolder node).length ≠ 0 :=
      fun h0 => hne (List.length_eq_zero.mp h0)
    rw [if_neg hm, if_pos rfl]
  · intro k hk
    have hk2 : k ∉ ((getAllBanksInFolder node).map getBankKey).toFinset :=
      fun hmem => hk (List.mem_toFinset.mp hmem)
    by_cases h : getFolderState sel node = .selAll
    · rw [hall h, Finset.mem_sdiff]
      exact ⟨fun hx => hx.1, fun hx => ⟨hx, hk2⟩⟩
    · rw [hother h, Finset.mem_union]
      exact ⟨fun hx => hx.resolve_right (fun hc => hk2 hc), Or.inl⟩

/-- Witness for C9: toggling a concrete partially selected folder of
two banks yields the fully selected state. -/
theorem toggleFolder_spec_witness :
    getFolderState
      (toggleFolder {"3-0"}
        (.node "Root" "" [⟨"A", "f", .num 3, .num 0, []⟩]
          [("Sub", .node "Sub" "Sub" [⟨"B", "g", .num 4, .num 0, []⟩] [])]))
      (.node "Root" "" [⟨"A", "f", .num 3, .num 0, []⟩]
        [("Sub", .node "Sub" "Sub" [⟨"B", "g", .num 4, .num 0, []⟩] [])]) = .selAll :=
  (toggleFolder_spec
    (.node "Root" "" [⟨"A", "f", .num 3, .num 0, []⟩]
      [("Sub", .node "Sub" "Sub" [⟨"B", "g", .num 4, .num 0, []⟩] [])]) {"3-0"}).2.2.1
    (by decide)

/-! ## Evaluator for the JavaScript regular expressions of the
hierarchy classifier.  Alternatives are tried left to right and
quantifiers are greedy, giving the match states in backtracking
priority order; the head of the state list is the JavaScript match. -/

inductive RE where
  | eps
  | lit (cs : List Char)
  | cls (p : Char → Bool)
  | dot
  | seq (a b : RE)
  | alt (a b : RE)
  | opt (r : RE)
  | star (r : RE)
  | grp (i : Nat) (r : RE)
  | bol
  | eol
  | wb

/-- Matching state: the character before the current position (for
anchors and word boundaries), the remaining input, and the two capture
group slots. -/
structure MSt where
  prev : Option Char
  rest : List Char
  cap1 : Option (List Char)
  cap2 : Option (List Char)

/-- Character canonicalization under the ignore-case flag. -/
def canonC (ci : Bool) (c : Char) : Char := if ci then c.toLower else c

/-- JavaScript regular expression word character class. -/
def wordChar (c : Char) : Bool := c.isAlpha || c.isDigit || c = '_'

def atWordBoundary (prev : Option Char) (rest : List Char) : Bool :=
  let a := match prev with | some c => wordChar c | none => false
  let b := match rest with | c :: _ => wordChar c | [] => false
  a != b

def consumeLit (ci : Bool) : List Char → Option Char → List Char →
    Option (Option Char × List Char)
  | [], p, s => some (p, s)
  | _ :: _, _, [] => none
  | c :: cs, _, d :: ds =>
    if canonC ci c = canonC ci d then consumeLit ci cs (some d) ds else none

/-- Run a regular expression from a state, returning the reachable end
states in backtracking priority order.  The fuel argument bounds the
recursion depth; every use in this file supplies a fuel far above the
depth the evaluation needs, and every result relied on is checked on
concrete inputs. -/
def runRE (ci : Bool) : Nat → RE → MSt → List MSt
  | 0, _, _ => []
  | _ + 1, .eps, st => [st]
  | _ + 1, .bol, st => if st.prev = none then [st] else []
  | _ + 1, .eol, st => if st.rest = [] then [st] else []
  | _ + 1, .wb, st => if atWordBoundary st.prev st.rest then [st] else []
  | _ + 1, .lit cs, st =>
    match consumeLit ci cs st.prev st.rest with
    | some (p, s) => [{ st with prev := p, rest := s }]
    | none => []
  | _ + 1, .cls p, st =>
    match st.rest with
    | c :: r => if p (canonC ci c) then [{ st with prev := some c, rest := r }] else []
    | [] => []
  | _ + 1, .dot, st =>
    match st.rest with
    | c :: r => if c = '\n' then [] else [{ st with prev := some c, rest := r }]
    | [] => []
  | f + 1, .seq a b, st => (runRE ci f a st).flatMap (runRE ci f b)
  | f + 1, .alt a b, st => runRE ci f a st ++ runRE ci f b st
  | f + 1, .opt r, st => runRE ci f r st ++ [st]
  | f + 1, .grp i r, st =>
    (runRE ci f r st).map (fun st' =>
      let cap := st.rest.take (st.rest.length - st'.rest.length)
      if i = 1 then { st' with cap1 := some cap } else { st' with cap2 := some cap })
  | f + 1, .star r, st =>
    ((runRE ci f r st).flatMap (fun st' =>
      if st'.rest.length < st.rest.length then runRE ci f (.star r) st' else [])) ++ [st]

def reFuel : Nat := 500

/-- Result of a JavaScript match call: start index, length of the
whole match, and the two capture groups. -/
structure ReMatch where
  start : Nat
  len : Nat
  cap1 : Option String
  cap2 : Option String

def jsSearchAux (ci : Bool) (r : RE) (prev : Option Char) (s : List Char) (idx : Nat) :
    Option (Nat × Nat × MSt) :=
  match runRE ci reFuel r ⟨prev, s, none, none⟩ with
  | st :: _ => some (idx, s.length, st)
  | [] =>
    match s with
    | [] => none
    | c :: rest => jsSearchAux ci r (some c) rest (idx + 1)

/-- JavaScript String.prototype.match: the leftmost match, with
backtracking priority deciding its extent and captures. -/
def jsMatch (ci : Bool) (r : RE) (s : String) : Option ReMatch :=
  match jsSearchAux ci r none s.data 0 with
  | none => none
  | some (idx, sufLen, st) =>
    some ⟨idx, sufLen - st.rest.length, st.cap1.map List.asString, st.cap2.map List.asString⟩

/-- JavaScript RegExp.prototype.test. -/
def reTest (ci : Bool) (r : RE) (s : String) : Bool := (jsMatch ci r s).isSome

/-- JavaScript String.prototype.replace with a plain regular expression
and an empty replacement: the first match is removed. -/
def jsReplaceFirst (ci : Bool) (r : RE) (s : String) : String :=
  match jsMatch ci r s with
  | some m => ⟨s.data.take m.start ++ s.data.drop (m.start + m.len)⟩
  | none => s

/-! Construction helpers for the pattern tables. -/

def rcat (rs : List RE) : RE := rs.foldr .seq .eps

def ralt : List RE → RE
  | [] => .eps
  | [r] => r
  | r :: rest => .alt r (ralt rest)

def rlit (s : String) : RE := .lit s.data

def rplus (r : RE) : RE := .seq r (.star r)

/-- Greedy bounded repetition r{0,n}. -/
def rupto (r : RE) : Nat → RE
  | 0 => .eps
  | n + 1 => .opt (.seq r (rupto r n))

def rchars (s : String) : RE := .cls (fun c => s.data.contains c)

def clsUpper : RE := .cls (fun c => 'A' ≤ c && c ≤ 'Z')
def clsUpAl : RE := .cls (fun c => ('A' ≤ c && c ≤ 'Z') || c.isDigit)
def clsLowAZ : RE := .cls (fun c => 'a' ≤ c && c ≤ 'z')
def clsDigit : RE := .cls Char.isDigit
def clsWs : RE := .cls isJsWs
def clsNWs : RE := .cls (fun c => !isJsWs c)
def clsWord : RE := .cls wordChar

/-! ## Hierarchy classifier (src/app/template-builder/page.tsx) -/

/-- The ordered prefix rule table of parseBankNameToPath (page.tsx
lines 122 to 361), translated rule for rule; all rules are case
sensitive and anchored at the start of the name. -/
def prefixPatterns : List (RE × String) := [
  (rcat [RE.bol, rlit "8DAGE1", rplus (clsWs)], "8Dio Acoustic Grand Ensembles"),  -- ^8DAGE1\s+
  (rcat [RE.bol, rlit "8DAGE2", rplus (clsWs)], "8Dio Acoustic Grand Ensembles 2"),  -- ^8DAGE2\s+
  (rcat [RE.bol, rlit "8DADS", rplus (clsWs)], "8Dio Adagio Deep Strings"),  -- ^8DADS\s+
  (rcat [RE.bol, rlit "8DAD2", rplus (clsWs)], "8Dio Adagio Deep Strings 2"),  -- ^8DAD2\s+
  (rcat [RE.bol, rlit "8DA2", RE.opt (rlit "N"), rplus (clsWs)], "8Dio Adagio"),  -- ^8DA2N?\s+
  (rcat [RE.bol, rlit "8DAB", rplus (clsWs)], "8Dio Adagio Basses"),  -- ^8DAB\s+
  (rcat [RE.bol, rlit "8DAGA", rplus (clsWs)], "8Dio Agitato"),  -- ^8DAGA\s+
  (rcat [RE.bol, rlit "8DAGC", rplus (clsWs)], "8Dio Agitato Cellos"),  -- ^8DAGC\s+
  (rcat [RE.bol, rlit "8DAGI", rplus (clsWs)], "8Dio Agitato"),  -- ^8DAGI\s+
  (rcat [RE.bol, rlit "8DALA", rplus (clsWs)], "8Dio Lacrimosa"),  -- ^8DALA\s+
  (rcat [RE.bol, rlit "8DANT", rplus (clsWs)], "8Dio Anthology"),  -- ^8DANT\s+
  (rcat [RE.bol, rlit "8DAS", rplus (clsWs)], "8Dio Adagio Strings"),  -- ^8DAS\s+
  (rcat [RE.bol, rlit "8DC", RE.star (clsUpAl), rplus (clsWs)], "8Dio Century"),  -- ^8DC[A-Z0-9]*\s+
  (rcat [RE.bol, rlit "8DDQS", rplus (clsWs)], "8Dio Deep Quartet Strings"),  -- ^8DDQS\s+
  (rcat [RE.bol, rlit "8DEP", rplus (clsWs)], "8Dio Epic"),  -- ^8DEP\s+
  (rcat [RE.bol, rlit "8DFIS", rplus (clsWs)], "8Dio Fiore Intimate Strings"),  -- ^8DFIS\s+
  (rcat [RE.bol, rlit "8DFIT", rplus (clsWs)], "8Dio Fiore Intimate Tutti"),  -- ^8DFIT\s+
  (rcat [RE.bol, rlit "8DFT", rplus (clsWs)], "8Dio Fire Toolkit"),  -- ^8DFT\s+
  (rcat [RE.bol, rlit "8DFVC", rplus (clsWs)], "8Dio Vocals"),  -- ^8DFVC\s+
  (rcat [RE.bol, rlit "8DF", RE.star (clsUpAl), rplus (clsWs)], "8Dio"),  -- ^8DF[A-Z0-9]*\s+
  (rcat [RE.bol, rlit "8DINS", rplus (clsWs)], "8Dio Insolidus"),  -- ^8DINS\s+
  (rcat [RE.bol, rlit "8DI", RE.star (clsUpAl), rplus (clsWs)], "8Dio Intimate"),  -- ^8DI[A-Z0-9]*\s+
  (rcat [RE.bol, rlit "8DLAC", rplus (clsWs)], "8Dio Lacrimosa"),  -- ^8DLAC\s+
  (rcat [RE.bol, rlit "8DLI", rplus (clsWs)], "8Dio Liberis"),  -- ^8DLI\s+
  (rcat [RE.bol, rlit "8DL", RE.star (clsUpAl), rplus (clsWs)], "8Dio Liberis"),  -- ^8DL[A-Z0-9]*\s+
  (rcat [RE.bol, rlit "8DMAJ", rplus (clsWs)], "8Dio Majestica"),  -- ^8DMAJ\s+
  (rcat [RE.bol, rlit "8DMJ", RE.star (clsUpAl), rplus (clsWs)], "8Dio Majestica"),  -- ^8DMJ[A-Z0-9]*\s+
  (rcat [RE.bol, rlit "8DM", RE.star (clsUpAl), rplus (clsWs)], "8Dio"),  -- ^8DM[A-Z0-9]*\s+
  (rcat [RE.bol, rlit "8DOBS", rplus (clsWs)], "8Dio Ostinato Brass"),  -- ^8DOBS\s+
  (rcat [RE.bol, rlit "8DOWS", rplus (clsWs)], "8Dio Ostinato Woodwinds"),  -- ^8DOWS\s+
  (rcat [RE.bol, rlit "8DO", RE.star (clsUpAl), rplus (clsWs)], "8Dio"),  -- ^8DO[A-Z0-9]*\s+
  (rcat [RE.bol, rlit "8DQ", RE.star (clsUpAl), rplus (clsWs)], "8Dio"),  -- ^8DQ[A-Z0-9]*\s+
  (rcat [RE.bol, rlit "8DREP", rplus (clsWs)], "8Dio Repertoire"),  -- ^8DREP\s+
  (rcat [RE.bol, rlit "8DRQN", rplus (clsWs)], "8Dio Requiem"),  -- ^8DRQN\s+
  (rcat [RE.bol, rlit "8DR", RE.star (clsUpAl), rplus (clsWs)], "8Dio Requiem"),  -- ^8DR[A-Z0-9]*\s+
  (rcat [RE.bol, rlit "8DSIC", rplus (clsWs)], "8Dio Silka"),  -- ^8DSIC\s+
  (rcat [RE.bol, rlit "8DSYS", rplus (clsWs)], "8Dio Symphony"),  -- ^8DSYS\s+
  (rcat [RE.bol, rlit "8DSS", RE.star (clsUpAl), rplus (clsWs)], "8Dio Studio Sopranos"),  -- ^8DSS[A-Z0-9]*\s+
  (rcat [RE.bol, rlit "8DS", RE.star (clsUpAl), rplus (clsWs)], "8Dio Studio"),  -- ^8DS[A-Z0-9]*\s+
  (rcat [RE.bol, rlit "8D", rplus (clsUpAl), rplus (clsWs)], "8Dio"),  -- ^8D[A-Z0-9]+\s+
  (rcat [RE.bol, rlit "8S", RE.star (clsUpAl), rplus (clsWs)], "8Dio"),  -- ^8S[A-Z0-9]*\s+
  (rcat [RE.bol, rlit "SFBB", RE.star (clsUpAl), rplus (clsWs)], "Spitfire British Brass"),  -- ^SFBB[A-Z0-9]*\s+
  (rcat [RE.bol, rlit "SFA", rplus (clsDigit), rplus (clsWs)], "Spitfire Albion"),  -- ^SFA[0-9]+\s+
  (rcat [RE.bol, rlit "SFAL", RE.star (clsUpAl), rplus (clsWs)], "Spitfire Albion"),  -- ^SFAL[A-Z0-9]*\s+
  (rcat [RE.bol, rlit "SFSS", RE.star (clsUpAl), rplus (clsWs)], "Spitfire Studio Strings"),  -- ^SFSS[A-Z0-9]*\s+
  (rcat [RE.bol, rlit "SFSW", RE.star (clsUpAl), rplus (clsWs)], "Spitfire Studio Woodwinds"),  -- ^SFSW[A-Z0-9]*\s+
  (rcat [RE.bol, rlit "SFSB", RE.star (clsUpAl), rplus (clsWs)], "Spitfire Studio Brass"),  -- ^SFSB[A-Z0-9]*\s+
  (rcat [RE.bol, rlit "SFCS", RE.star (clsUpAl), rplus (clsWs)], "Spitfire Chamber Strings"),  -- ^SFCS[A-Z0-9]*\s+
  (rcat [RE.bol, rlit "SFSO", RE.star (clsUpAl), rplus (clsWs)], "Spitfire Symphony Orchestra"),  -- ^SFSO[A-Z0-9]*\s+
  (rcat [RE.bol, rlit "SFOP", RE.star (clsUpAl), rplus (clsWs)], "Spitfire Originals"),  -- ^SFOP[A-Z0-9]*\s+
  (rcat [RE.bol, rlit "SF", rplus (clsUpAl), rplus (clsWs)], "Spitfire Audio"),  -- ^SF[A-Z0-9]+\s+
  (rcat [RE.bol, rlit "BBCSO", rplus (clsWs)], "BBC Symphony Orchestra"),  -- ^BBCSO\s+
  (rcat [RE.bol, rlit "CSSS", RE.star (clsDigit), rplus (clsWs)], "Cinematic Studio Strings"),  -- ^CSSS[0-9]*\s+
  (rcat [RE.bol, rlit "CSST", RE.star (clsDigit), rplus (clsWs)], "Cinematic Studio Strings"),  -- ^CSST[0-9]*\s+
  (rcat [RE.bol, rlit "CSSW", RE.star (clsDigit), rplus (clsWs)], "Cinematic Studio Woodwinds"),  -- ^CSSW[0-9]*\s+
  (rcat [RE.bol, rlit "CSSB", RE.star (clsUpAl), rplus (clsWs)], "Cinematic Studio Brass"),  -- ^CSSB[A-Z0-9]*\s+
  (rcat [RE.bol, rlit "CSSO", RE.star (clsUpAl), rplus (clsWs)], "Cinematic Solo Strings"),  -- ^CSSO[A-Z0-9]*\s+
  (rcat [RE.bol, rlit "CSCP", RE.star (clsUpAl), rplus (clsWs)], "Cinematic Studio Piano"),  -- ^CSCP[A-Z0-9]*\s+
  (rcat [RE.bol, rlit "CSM", rplus (clsUpAl), rplus (clsWs)], "Cinesamples"),  -- ^CSM[A-Z0-9]+\s+
  (rcat [RE.bol, rlit "CSS", RE.star (clsUpAl), rplus (clsWs)], "Cinematic Studio Series"),  -- ^CSS[A-Z0-9]*\s+
  (rcat [RE.bol, rlit "CI", rplus (clsUpAl), rplus (clsWs)], "Cinesamples"),  -- ^CI[A-Z0-9]+\s+
  (rcat [RE.bol, rlit "EWHF", rplus (clsUpAl), rplus (clsWs)], "EW Hollywood Fantasy Orchestra"),  -- ^EWHF[A-Z0-9]+\s+
  (rcat [RE.bol, rlit "EWHO", RE.star (clsUpAl), rplus (clsWs)], "EW Hollywood Orchestra"),  -- ^EWHO[A-Z0-9]*\s+
  (rcat [RE.bol, rlit "EWHB", RE.star (clsUpAl), rplus (clsWs)], "EW Hollywood Brass"),  -- ^EWHB[A-Z0-9]*\s+
  (rcat [RE.bol, rlit "EWHS", RE.star (clsUpAl), rplus (clsWs)], "EW Hollywood Strings"),  -- ^EWHS[A-Z0-9]*\s+
  (rcat [RE.bol, rlit "EWHW", RE.star (clsUpAl), rplus (clsWs)], "EW Hollywood Woodwinds"),  -- ^EWHW[A-Z0-9]*\s+
  (rcat [RE.bol, rlit "EWHH", RE.star (clsUpAl), rplus (clsWs)], "EW Hollywood Harp"),  -- ^EWHH[A-Z0-9]*\s+
  (rcat [RE.bol, rlit "EWHC", RE.star (clsUpAl), rplus (clsWs)], "EW Hollywood Choirs"),  -- ^EWHC[A-Z0-9]*\s+
  (rcat [RE.bol, rlit "EWHP", RE.star (clsUpAl), rplus (clsWs)], "EW Hollywood Percussion"),  -- ^EWHP[A-Z0-9]*\s+
  (rcat [RE.bol, rlit "EWH", rplus (clsUpAl), rplus (clsWs)], "EW Hollywood"),  -- ^EWH[A-Z0-9]+\s+
  (rcat [RE.bol, rlit "EWOH", rplus (clsUpAl), rplus (clsWs)], "EW Hollywood Orchestra Opus"),  -- ^EWOH[A-Z0-9]+\s+
  (rcat [RE.bol, rlit "EWOP", rplus (clsUpAl), rplus (clsWs)], "EW Hollywood Orchestra Opus"),  -- ^EWOP[A-Z0-9]+\s+
  (rcat [RE.bol, rlit "EWS", rplus (clsUpAl), rplus (clsWs)], "EW Symphonic Orchestra"),  -- ^EWS[A-Z0-9]+\s+
  (rcat [RE.bol, rlit "EWVO", rplus (clsUpAl), rplus (clsWs)], "EW Voices of"),  -- ^EWVO[A-Z0-9]+\s+
  (rcat [RE.bol, rlit "EWVP", RE.star (clsUpAl), rplus (clsWs)], "EW"),  -- ^EWVP[A-Z0-9]*\s+
  (rcat [RE.bol, rlit "EWMR", RE.star (clsUpAl), rplus (clsWs)], "EW Ministry of Rock"),  -- ^EWMR[0-9A-Z]*\s+
  (rcat [RE.bol, rlit "EWRA", RE.star (clsUpAl), rplus (clsWs)], "EW RA"),  -- ^EWRA[A-Z0-9]*\s+
  (rcat [RE.bol, rlit "EWG", rplus (clsUpAl), rplus (clsWs)], "EW Goliath"),  -- ^EWG[A-Z0-9]+\s+
  (rcat [RE.bol, rlit "EWDB", RE.star (clsUpAl), rplus (clsWs)], "EW"),  -- ^EWDB[A-Z0-9]*\s+
  (rcat [RE.bol, rlit "EWDS", RE.star (clsUpAl), rplus (clsWs)], "EW"),  -- ^EWDS[A-Z0-9]*\s+
  (rcat [RE.bol, rlit "EWBA", RE.star (clsUpAl), rplus (clsWs)], "EW"),  -- ^EWBA[A-Z0-9]*\s+
  (rcat [RE.bol, rlit "EWCO", RE.star (clsUpAl), rplus (clsWs)], "EW"),  -- ^EWCO[A-Z0-9]*\s+
  (rcat [RE.bol, rlit "EW", rplus (clsUpAl), rplus (clsWs)], "EastWest"),  -- ^EW[A-Z0-9]+\s+
  (rcat [RE.bol, rlit "OTMA", rplus (clsDigit), RE.star (clsUpAl), rplus (clsWs)], "OT Metropolis Ark"),  -- ^OTMA[0-9]+[A-Z0-9]*\s+
  (rcat [RE.bol, rlit "OTBB", RE.star (clsUpAl), rplus (clsWs)], "OT Berlin Brass"),  -- ^OTBB[A-Z0-9]*\s+
  (rcat [RE.bol, rlit "OTBS", RE.star (clsUpAl), rplus (clsWs)], "OT Berlin Strings"),  -- ^OTBS[A-Z0-9]*\s+
  (rcat [RE.bol, rlit "OTBW", RE.star (clsUpAl), rplus (clsWs)], "OT Berlin Woodwinds"),  -- ^OTBW[A-Z0-9]*\s+
  (rcat [RE.bol, rlit "OTSO", RE.star (clsUpAl), rplus (clsWs)], "OT Soloists"),  -- ^OTSO[A-Z0-9]*\s+
  (rcat [RE.bol, rlit "OTSYS", RE.star (clsUpAl), rplus (clsWs)], "OT Symphonic"),  -- ^OTSYS[A-Z0-9]*\s+
  (rcat [RE.bol, rlit "OTI", rplus (clsDigit), RE.star (clsUpAl), rplus (clsWs)], "OT Inspire"),  -- ^OTI[0-9]+[A-Z0-9]*\s+
  (rcat [RE.bol, rlit "OT", rplus (clsUpAl), rplus (clsWs)], "Orchestral Tools"),  -- ^OT[A-Z0-9]+\s+
  (rcat [RE.bol, rlit "VSBB", RE.star (clsDigit), rplus (clsWs)], "VSL Big Bang Orchestra"),  -- ^VSBB[0-9]*\s+
  (rcat [RE.bol, rlit "VSSY", rplus (clsUpAl), rplus (clsWs)], "VSL Synchron-ized"),  -- ^VSSY[A-Z0-9]+\s+
  (rcat [RE.bol, rlit "VSSYS", RE.star (clsUpAl), rplus (clsWs)], "VSL Synchron Strings"),  -- ^VSSYS[A-Z0-9]*\s+
  (rcat [RE.bol, rlit "VSSS", RE.star (clsUpAl), rplus (clsWs)], "VSL Synchron Strings"),  -- ^VSSS[A-Z0-9]*\s+
  (rcat [RE.bol, rlit "VSS", rplus (clsUpAl), rplus (clsWs)], "VSL Synchron"),  -- ^VSS[A-Z0-9]+\s+
  (rcat [RE.bol, rlit "VSE", rplus (clsDigit), rplus (clsWs)], "VSL SE"),  -- ^VSE[0-9]+\s+
  (rcat [RE.bol, rlit "VSY", rplus (clsUpAl), rplus (clsWs)], "VSL Synchron"),  -- ^VSY[A-Z0-9]+\s+
  (rcat [RE.bol, rlit "VS", rplus (clsUpAl), rplus (clsWs)], "Vienna Symphonic Library"),  -- ^VS[A-Z0-9]+\s+
  (rcat [RE.bol, rlit "NICRQ", RE.star (clsUpAl), rplus (clsWs)], "NI Cremona Quartet"),  -- ^NICRQ[A-Z0-9]*\s+
  (rcat [RE.bol, rlit "NIK", rplus (clsDigit), rplus (clsWs)], "NI Kontakt"),  -- ^NIK[0-9]+\s+
  (rcat [RE.bol, rlit "NI", rplus (clsUpAl), rplus (clsWs)], "Native Instruments"),  -- ^NI[A-Z0-9]+\s+
  (rcat [RE.bol, rlit "AIAR", RE.star (clsDigit), RE.star (clsUpAl), rplus (clsWs)], "AI Areia"),  -- ^AIAR[0-9]*[A-Z0-9]*\s+
  (rcat [RE.bol, rlit "AINU", RE.star (clsDigit), RE.star (clsUpAl), rplus (clsWs)], "AI Nucleus"),  -- ^AINU[0-9]*[A-Z0-9]*\s+
  (rcat [RE.bol, rlit "AIJG", rplus (clsDigit), rplus (clsWs)], "AI Jaeger"),  -- ^AIJG[0-9]+\s+
  (rcat [RE.bol, rlit "AI", rplus (clsUpAl), rplus (clsWs)], "Audio Imperia"),  -- ^AI[A-Z0-9]+\s+
  (rcat [RE.bol, rlit "AB", rplus (clsUpAl), rplus (clsWs)], "Spitfire Albion"),  -- ^AB[A-Z0-9]+\s+
  (rcat [RE.bol, rlit "PS", rplus (clsUpAl), rplus (clsWs)], "ProjectSAM"),  -- ^PS[A-Z0-9]+\s+
  (rcat [RE.bol, rlit "ST", rplus (clsUpAl), rplus (clsWs)], "Strezov Sampling"),  -- ^ST[A-Z0-9]+\s+
  (rcat [RE.bol, rlit "CH", rplus (clsUpAl), rplus (clsWs)], "Chris Hein"),  -- ^CH[A-Z0-9]+\s+
  (rcat [RE.bol, rlit "SO", rplus (clsUpAl), rplus (clsWs)], "Sonuscore"),  -- ^SO[A-Z0-9]+\s+
  (rcat [RE.bol, rlit "SN", rplus (clsUpAl), rplus (clsWs)], "Sonuscore"),  -- ^SN[A-Z0-9]+\s+
  (rcat [RE.bol, rlit "MS", rplus (clsUpAl), rplus (clsWs)], "Musical Sampling"),  -- ^MS[A-Z0-9]+\s+
  (rcat [RE.bol, rlit "AU", rplus (clsUpAl), rplus (clsWs)], "Audiobro"),  -- ^AU[A-Z0-9]+\s+
  (rcat [RE.bol, rlit "FA", rplus (clsUpAl), rplus (clsWs)], "Fluffy Audio"),  -- ^FA[A-Z0-9]+\s+
  (rcat [RE.bol, rlit "FR", rplus (clsUpAl), rplus (clsWs)], "Fracture Sounds"),  -- ^FR[A-Z0-9]+\s+
  (rcat [RE.bol, rlit "IS", rplus (clsUpAl), rplus (clsWs)], "Impact Soundworks"),  -- ^IS[A-Z0-9]+\s+
  (rcat [RE.bol, rlit "IW", rplus (clsUpAl), rplus (clsWs)], "Impact Soundworks"),  -- ^IW[A-Z0-9]+\s+
  (rcat [RE.bol, rlit "SL", rplus (clsUpAl), rplus (clsWs)], "Sample Logic"),  -- ^SL[A-Z0-9]+\s+
  (rcat [RE.bol, rlit "HY", rplus (clsUpAl), rplus (clsWs)], "Heavyocity"),  -- ^HY[A-Z0-9]+\s+
  (rcat [RE.bol, rlit "EM", rplus (clsUpAl), rplus (clsWs)], "Embertone"),  -- ^EM[A-Z0-9]+\s+
  (rcat [RE.bol, rlit "OR", rplus (clsUpAl), rplus (clsWs)], "Orange Tree Samples"),  -- ^OR[A-Z0-9]+\s+
  (rcat [RE.bol, rlit "LABS", rplus (clsWs)], "Spitfire LABS"),  -- ^LABS\s+
  (rcat [RE.bol, rlit "KH", rplus (clsUpAl), rplus (clsWs)], "Keepforest"),  -- ^KH[A-Z0-9]+\s+
  (rcat [RE.bol, rlit "BE", rplus (clsUpAl), rplus (clsWs)], "OT Berlin"),  -- ^BE[A-Z0-9]+\s+
  (rcat [RE.bol, rlit "AP", rplus (clsUpAl), rplus (clsWs)], "Aaron Venture"),  -- ^AP[A-Z0-9]+\s+
  (rcat [RE.bol, rlit "WS", rplus (clsUpAl), rplus (clsWs)], "Westgate"),  -- ^WS[A-Z0-9]+\s+
  (rcat [RE.bol, rlit "PL", rplus (clsUpAl), rplus (clsWs)], "Performance Samples"),  -- ^PL[A-Z0-9]+\s+
  (rcat [RE.bol, rlit "VH", rplus (clsUpAl), rplus (clsWs)], "Virharmonic"),  -- ^VH[A-Z0-9]+\s+
  (rcat [RE.bol, rlit "VE", rplus (clsUpAl), rplus (clsWs)], "Virharmonic"),  -- ^VE[A-Z0-9]+\s+
  (rcat [RE.bol, rlit "V2M2", RE.opt (clsUpAl), rplus (clsWs)], "V2 Musics Big Band"),  -- ^V2M2[A-Z0-9]?\s+
  (rcat [RE.bol, rlit "SI", rplus (clsUpAl), rplus (clsWs)], "Soundiron"),  -- ^SI[A-Z0-9]+\s+
  (rcat [RE.bol, rlit "SK", rplus (clsUpAl), rplus (clsWs)], "Sonokinetic"),  -- ^SK[A-Z0-9]+\s+
  (rcat [RE.bol, rlit "SA", rplus (clsUpAl), rplus (clsWs)], "Submission Audio"),  -- ^SA[A-Z0-9]+\s+
  (rcat [RE.bol, rlit "SSLC", rplus (clsWs)], "Sample Modeling"),  -- ^SSLC\s+
  (rcat [RE.bol, rlit "SSLV", rplus (clsWs)], "Sample Modeling"),  -- ^SSLV\s+
  (rcat [RE.bol, rlit "SSTB", RE.star (clsUpAl), rplus (clsWs)], "Spitfire Studio Brass"),  -- ^SSTB[A-Z0-9]*\s+
  (rcat [RE.bol, rlit "SSTS", RE.star (clsUpAl), rplus (clsWs)], "Spitfire Studio Strings"),  -- ^SSTS[A-Z0-9]*\s+
  (rcat [RE.bol, rlit "SSTW", RE.star (clsUpAl), rplus (clsWs)], "Spitfire Studio Woodwinds"),  -- ^SSTW[A-Z0-9]*\s+
  (rcat [RE.bol, rlit "SS", rplus (clsUpAl), rplus (clsWs)], "Spitfire Studio"),  -- ^SS[A-Z0-9]+\s+
  (rcat [RE.bol, rlit "SP", rplus (clsUpAl), rplus (clsWs)], "Spitfire"),  -- ^SP[A-Z0-9]+\s+
  (rcat [RE.bol, rlit "SR", rplus (clsUpAl), rplus (clsWs)], "Spitfire"),  -- ^SR[A-Z0-9]+\s+
  (rcat [RE.bol, rlit "SX", rplus (clsUpAl), rplus (clsWs)], "Spitfire"),  -- ^SX[A-Z0-9]+\s+
  (rcat [RE.bol, rlit "RA", rplus (clsUpAl), rplus (clsWs)], "Rigid Audio"),  -- ^RA[A-Z0-9]+\s+
  (rcat [RE.bol, rlit "RW", rplus (clsUpAl), rplus (clsWs)], "Red Room Audio"),  -- ^RW[A-Z0-9]+\s+
  (rcat [RE.bol, rlit "SM", rplus (clsUpAl), rplus (clsWs)], "Sample Modeling"),  -- ^SM[A-Z0-9]+\s+
  (rcat [RE.bol, rlit "ORC", RE.opt (rlit "H"), rplus (clsWs)], "Orchestral"),  -- ^ORCH?\s+
  (rcat [RE.bol, rlit "ID", rplus (clsUpAl), rplus (clsWs)], "Infinite"),  -- ^ID[A-Z0-9]+\s+
  (rcat [RE.bol, rlit "IN", rplus (clsUpAl), rplus (clsWs)], "Infinite"),  -- ^IN[A-Z0-9]+\s+
  (rcat [RE.bol, rlit "XP", rplus (clsUpAl), rplus (clsWs)], "Xperimenta"),  -- ^XP[A-Z0-9]+\s+
  (rcat [RE.bol, rlit "UV", rplus (clsUpAl), rplus (clsWs)], "UVI"),  -- ^UV[A-Z0-9]+\s+
]

/-- The full-word instrument pattern table of
extractInstrumentFolder (page.tsx lines 369 to 434); every pattern
carries the ignore-case flag and one capture group. -/
def instrumentPatterns : List RE := [
  rcat [RE.bol, RE.grp 1 (rcat [RE.opt (ralt [rlit "1st ", rlit "2nd ", rlit "First ", rlit "Second "]), rlit "Violin", RE.opt (rchars "s"), RE.opt (rcat [RE.star (clsWs), rchars "12"])])],  -- ^((?:1st |2nd |First |Second )?Violin[s]?(?:\s*[1-2])?)
  rcat [RE.bol, RE.grp 1 (rcat [rlit "Viola", RE.opt (rchars "s")])],  -- ^(Viola[s]?)
  rcat [RE.bol, RE.grp 1 (rcat [rlit "Cell", rchars "oi", RE.opt (rcat [RE.star (clsWs), rchars "12"])])],  -- ^(Cell[oi](?:\s*[1-2])?)
  rcat [RE.bol, RE.grp 1 (rcat [RE.opt (ralt [rlit "Double ", rlit "Upright "]), rlit "Bass", RE.opt (rlit "es"), RE.opt (rcat [RE.star (clsWs), rchars "12"])])],  -- ^((?:Double |Upright )?Bass(?:es)?(?:\s*[1-2])?)
  rcat [RE.bol, RE.grp 1 (rlit "Contrabass")],  -- ^(Contrabass)
  rcat [RE.bol, RE.grp 1 (rcat [rlit "Trumpet", RE.opt (rchars "s"), RE.opt (rcat [RE.star (clsWs), rchars "123"])])],  -- ^(Trumpet[s]?(?:\s*[1-3])?)
  rcat [RE.bol, RE.grp 1 (rcat [rlit "Trombone", RE.opt (rchars "s")])],  -- ^(Trombone[s]?)
  rcat [RE.bol, RE.grp 1 (rcat [RE.opt (rlit "French "), rlit "Horn", RE.opt (rchars "s")])],  -- ^((?:French )?Horn[s]?)
  rcat [RE.bol, RE.grp 1 (rcat [rlit "Tuba", RE.opt (rchars "s")])],  -- ^(Tuba[s]?)
  rcat [RE.bol, RE.grp 1 (rcat [rlit "Wagner Tuba", RE.opt (rchars "s")])],  -- ^(Wagner Tuba[s]?)
  rcat [RE.bol, RE.grp 1 (rcat [rlit "Cornet", RE.opt (rchars "s")])],  -- ^(Cornet[s]?)
  rcat [RE.bol, RE.grp 1 (rlit "Flugelhorn")],  -- ^(Flugelhorn)
  rcat [RE.bol, RE.grp 1 (rcat [rlit "Euphoni", rchars "ou", rlit "m"])],  -- ^(Euphoni[ou]m)
  rcat [RE.bol, RE.grp 1 (rcat [rlit "Flute", RE.opt (rchars "s")])],  -- ^(Flute[s]?)
  rcat [RE.bol, RE.grp 1 (rcat [rlit "Oboe", RE.opt (rchars "s")])],  -- ^(Oboe[s]?)
  rcat [RE.bol, RE.grp 1 (rcat [rlit "Clarinet", RE.opt (rchars "s")])],  -- ^(Clarinet[s]?)
  rcat [RE.bol, RE.grp 1 (rcat [rlit "Bassoon", RE.opt (rchars "s")])],  -- ^(Bassoon[s]?)
  rcat [RE.bol, RE.grp 1 (rlit "Piccolo")],  -- ^(Piccolo)
  rcat [RE.bol, RE.grp 1 (rlit "English Horn")],  -- ^(English Horn)
  rcat [RE.bol, RE.grp 1 (rcat [rlit "Woodwind", RE.opt (rchars "s")])],  -- ^(Woodwind[s]?)
  rcat [RE.bol, RE.grp 1 (rlit "Timpani")],  -- ^(Timpani)
  rcat [RE.bol, RE.grp 1 (rlit "Percussion")],  -- ^(Percussion)
  rcat [RE.bol, RE.grp 1 (rlit "Snare")],  -- ^(Snare)
  rcat [RE.bol, RE.grp 1 (rcat [rlit "Cymbal", RE.opt (rlit "s")])],  -- ^(Cymbals?)
  rcat [RE.bol, RE.grp 1 (rlit "Xylophone")],  -- ^(Xylophone)
  rcat [RE.bol, RE.grp 1 (rlit "Marimba")],  -- ^(Marimba)
  rcat [RE.bol, RE.grp 1 (rlit "Vibraphone")],  -- ^(Vibraphone)
  rcat [RE.bol, RE.grp 1 (rlit "Glockenspiel")],  -- ^(Glockenspiel)
  rcat [RE.bol, RE.grp 1 (rlit "Piano")],  -- ^(Piano)
  rcat [RE.bol, RE.grp 1 (rlit "Harp")],  -- ^(Harp)
  rcat [RE.bol, RE.grp 1 (rlit "Celesta")],  -- ^(Celesta)
  rcat [RE.bol, RE.grp 1 (rlit "Choir")],  -- ^(Choir)
  rcat [RE.bol, RE.grp 1 (rcat [rlit "Soprano", RE.opt (rchars "s")])],  -- ^(Soprano[s]?)
  rcat [RE.bol, RE.grp 1 (rcat [rlit "Alto", RE.opt (rchars "s")])],  -- ^(Alto[s]?)
  rcat [RE.bol, RE.grp 1 (rcat [rlit "Tenor", RE.opt (rchars "s")])],  -- ^(Tenor[s]?)
  rcat [RE.bol, RE.grp 1 (rcat [rlit "Bass", RE.opt (rlit "o"), rplus (clsWs), rplus (clsWord)])],  -- ^(Basso?\s+\w+)
  rcat [RE.bol, RE.grp 1 (rcat [rlit "ATB", rplus (clsWs), rplus (clsWord)])],  -- ^(ATB\s+\w+)
  rcat [RE.bol, RE.grp 1 (rcat [rlit "Appassionata", rplus (clsWs), rplus (clsWord)])],  -- ^(Appassionata\s+\w+)
  rcat [RE.bol, RE.grp 1 (rcat [rlit "Chamber", rplus (clsWs), rplus (clsWord)])],  -- ^(Chamber\s+\w+)
  rcat [RE.bol, RE.grp 1 (rcat [rlit "Synchron", rplus (clsWs), rplus (clsWord), RE.opt (rcat [rplus (clsWs), rplus (clsWord)])])],  -- ^(Synchron\s+\w+(?:\s+\w+)?)
  rcat [RE.bol, RE.grp 1 (rcat [rlit "Epic", rplus (clsWs), rplus (clsWord)])],  -- ^(Epic\s+\w+)
  rcat [RE.bol, RE.grp 1 (rcat [rlit "Fanfare", rplus (clsWs), rplus (clsWord)])],  -- ^(Fanfare\s+\w+)
  rcat [RE.bol, RE.grp 1 (rcat [rlit "Dimension", rplus (clsWs), rplus (clsWord)])],  -- ^(Dimension\s+\w+)
  rcat [RE.bol, RE.grp 1 (rcat [rlit "Syzd", rplus (clsWs), rplus (clsWord), RE.opt (rcat [rplus (clsWs), rplus (clsWord)])])],  -- ^(Syzd\s+\w+(?:\s+\w+)?)
  rcat [RE.bol, RE.grp 1 (rcat [rlit "Century", rplus (clsWs), RE.opt (ralt [rcat [rlit "Ens", RE.opt (rlit "emble")], rcat [rlit "Str", RE.opt (rlit "ings")], rlit "Solo"]), RE.star (clsWs), RE.opt (rcat [rlit "Lite", rplus (clsWs)]), ralt [rlit "Vln", rlit "Vn"]])],  -- ^(Century\s+(?:Ens(?:emble)?|Str(?:ings)?|Solo)?\s*(?:Lite\s+)?(?:Vln|Vn))
  rcat [RE.bol, RE.grp 1 (rcat [rlit "Century", rplus (clsWs), RE.opt (ralt [rcat [rlit "Ens", RE.opt (rlit "emble")], rcat [rlit "Str", RE.opt (rlit "ings")], rlit "Solo"]), RE.star (clsWs), RE.opt (rcat [rlit "Lite", rplus (clsWs)]), ralt [rlit "Vla", rlit "Va"]])],  -- ^(Century\s+(?:Ens(?:emble)?|Str(?:ings)?|Solo)?\s*(?:Lite\s+)?(?:Vla|Va))
  rcat [RE.bol, RE.grp 1 (rcat [rlit "Century", rplus (clsWs), RE.opt (ralt [rcat [rlit "Ens", RE.opt (rlit "emble")], rcat [rlit "Str", RE.opt (rlit "ings")], rlit "Solo"]), RE.star (clsWs), RE.opt (rcat [rlit "Lite", rplus (clsWs)]), ralt [rlit "Vc", rlit "Vlc", rlit "Cello"]])],  -- ^(Century\s+(?:Ens(?:emble)?|Str(?:ings)?|Solo)?\s*(?:Lite\s+)?(?:Vc|Vlc|Cello))
  rcat [RE.bol, RE.grp 1 (rcat [rlit "Century", rplus (clsWs), RE.opt (ralt [rcat [rlit "Ens", RE.opt (rlit "emble")], rcat [rlit "Str", RE.opt (rlit "ings")], rlit "Solo"]), RE.star (clsWs), RE.opt (rcat [rlit "Lite", rplus (clsWs)]), ralt [rlit "CB", rlit "Cb", rlit "Bass"]])],  -- ^(Century\s+(?:Ens(?:emble)?|Str(?:ings)?|Solo)?\s*(?:Lite\s+)?(?:CB|Cb|Bass))
  rcat [RE.bol, RE.grp 1 (rcat [rlit "Century", rplus (clsWs), ralt [rlit "Brass", rcat [rlit "Woodwind", RE.opt (rlit "s")], rlit "WW", rcat [rlit "String", RE.opt (rlit "s")], rlit "Str"]])],  -- ^(Century\s+(?:Brass|Woodwinds?|WW|Strings?|Str))
  rcat [rlit "Century", RE.star (RE.dot), RE.wb, RE.grp 1 (ralt [rlit "Vln", rlit "Vn", rlit "Violin"])],  -- Century.*\b(Vln|Vn|Violin)
  rcat [rlit "Century", RE.star (RE.dot), RE.wb, RE.grp 1 (ralt [rlit "Vla", rlit "Va", rlit "Viola"])],  -- Century.*\b(Vla|Va|Viola)
  rcat [rlit "Century", RE.star (RE.dot), RE.wb, RE.grp 1 (ralt [rlit "Vc", rlit "Vlc", rlit "Cello"])],  -- Century.*\b(Vc|Vlc|Cello)
  rcat [rlit "Century", RE.star (RE.dot), RE.wb, RE.grp 1 (ralt [rlit "CB", rlit "Cb", rlit "Contrabass", rcat [rlit "Bass", RE.opt (rlit "es")]])],  -- Century.*\b(CB|Cb|Contrabass|Bass(?:es)?)
  rcat [rlit "Century", RE.star (RE.dot), RE.wb, RE.grp 1 (rlit "Brass")],  -- Century.*\b(Brass)
  rcat [rlit "Century", RE.star (RE.dot), RE.wb, RE.grp 1 (ralt [rlit "WW", rcat [rlit "Woodwind", RE.opt (rlit "s")]])],  -- Century.*\b(WW|Woodwinds?)
]

/-- The abbreviation pattern table of extractInstrumentFolder
(page.tsx lines 445 to 467): flag marking the ignore-case patterns,
the pattern, and the instrument folder label; the bare CB pattern is
case sensitive. -/
def abbrevPatterns : List (Bool × RE × String) := [
  (true, rcat [RE.wb, RE.grp 1 (ralt [rlit "Vln", rlit "Vn"]), RE.wb], "Violins"),  -- \b(Vln|Vn)\b
  (true, rcat [RE.wb, RE.grp 1 (ralt [rlit "Vla", rlit "Va"]), RE.wb], "Violas"),  -- \b(Vla|Va)\b
  (true, rcat [RE.wb, RE.grp 1 (ralt [rlit "Vc", rlit "Vlc"]), RE.wb], "Cellos"),  -- \b(Vc|Vlc)\b
  (false, rcat [RE.wb, rlit "CB", RE.wb], "Basses"),  -- \bCB\b
  (true, rcat [RE.wb, RE.grp 1 (ralt [rlit "Tpt", rlit "Tp"]), RE.wb], "Trumpets"),  -- \b(Tpt|Tp)\b
  (true, rcat [RE.wb, RE.grp 1 (ralt [rlit "Tbn", rlit "Trb"]), RE.wb], "Trombones"),  -- \b(Tbn|Trb)\b
  (true, rcat [RE.wb, RE.grp 1 (ralt [rlit "Hn", rlit "Hrn"]), RE.wb], "Horns"),  -- \b(Hn|Hrn)\b
  (true, rcat [RE.wb, rlit "Tba", RE.wb], "Tubas"),  -- \bTba\b
  (true, rcat [RE.wb, RE.grp 1 (rlit "Fl"), RE.wb], "Flutes"),  -- \b(Fl)\b
  (true, rcat [RE.wb, rlit "Ob", RE.wb], "Oboes"),  -- \bOb\b
  (true, rcat [RE.wb, rlit "Cl", RE.wb], "Clarinets"),  -- \bCl\b
  (true, rcat [RE.wb, RE.grp 1 (ralt [rlit "Bn", rlit "Bsn"]), RE.wb], "Bassoons"),  -- \b(Bn|Bsn)\b
  (true, rcat [RE.wb, rlit "Pic", RE.opt (rlit "c"), RE.wb], "Piccolo"),  -- \bPicc?\b
  (true, rcat [RE.wb, rlit "Str", RE.opt (rlit "ings"), RE.wb], "Strings"),  -- \bStr(?:ings)?\b
  (true, rcat [RE.wb, rlit "Brass", RE.wb], "Brass"),  -- \bBrass\b
  (true, rcat [RE.wb, ralt [rlit "WW", rcat [rlit "Woodwind", RE.opt (rlit "s")]], RE.wb], "Woodwinds"),  -- \b(?:WW|Woodwinds?)\b
  (true, rcat [RE.wb, rlit "Perc", RE.opt (rlit "ussion"), RE.wb], "Percussion"),  -- \bPerc(?:ussion)?\b
]

/-- Libraries large enough to get an instrument subfolder level
(page.tsx lines 480 to 501). -/
def librariesWithSubfolders : List String := [
  "VSL Synchron",
  "VSL Synchron-ized",
  "VSL Synchron Strings",
  "VSL SE",
  "Vienna Symphonic Library",
  "Orchestral Tools",
  "OT Berlin Brass",
  "OT Berlin Strings",
  "OT Berlin Woodwinds",
  "OT Metropolis Ark",
  "Spitfire Audio",
  "BBC Symphony Orchestra",
  "EW Hollywood Strings",
  "EW Hollywood Brass",
  "EW Hollywood Woodwinds",
  "EW Hollywood Orchestra",
  "8Dio Century",
  "8Dio Adagio",
  "8Dio Agitato",
  "8Dio"]

/-- Pattern stripping a leading number token such as 01 or 11a from the
bank rest (page.tsx line 366). -/
def stripNumRE : RE := rcat [RE.bol, rplus clsDigit, RE.opt clsLowAZ, rplus clsWs]

/-- First matching full-word instrument pattern: the text of capture
group one. -/
def findInstr : List RE → String → Option String
  | [], _ => none
  | p :: rest, s =>
    match jsMatch true p s with
    | some m => some (m.cap1.getD "")
    | none => findInstr rest s

/-- First abbreviation pattern whose test succeeds: its instrument
label. -/
def findAbbrev : List (Bool × RE × String) → String → Option String
  | [], _ => none
  | (ci, p, nm) :: rest, s =>
    if reTest ci p s then some nm else findAbbrev rest s

/-- Extract an instrument folder from the bank rest (page.tsx lines 364
to 477): strip a leading number token, try the full-word instrument
patterns (the capture becomes the folder label), then the abbreviation
patterns (the table label becomes the folder label); the second
component of the result is always the incoming name. -/
def extractInstrumentFolder (bankName : String) : Option String × String :=
  let withoutNumber := jsReplaceFirst false stripNumRE bankName
  match findInstr instrumentPatterns withoutNumber with
  | some instrument => (some instrument, bankName)
  | none =>
    match findAbbrev abbrevPatterns withoutNumber with
    | some instrumentName => (some instrumentName, bankName)
    | none => (none, bankName)

/-- First matching prefix rule: length of the whole match and the
library label. -/
def findLibrary : List (RE × String) → String → Option (Nat × String)
  | [], _ => none
  | (p, lib) :: rest, name =>
    match jsMatch false p name with
    | some m => some (m.len, lib)
    | none => findLibrary rest name

/-- Generic fallback pattern of parseBankNameToPath (page.tsx line
522): an all-caps alphanumeric token of length two to eight followed by
whitespace and a non-empty remainder. -/
def genericRE : RE :=
  rcat [RE.bol,
    RE.grp 1 (rcat [clsUpper, clsUpAl, rupto clsUpAl 6]),
    rplus clsWs, RE.grp 2 (rplus RE.dot), RE.eol]

/-- Classify a bank name into a folder path (page.tsx lines 503 to
527): the first matching prefix rule wins; its matched text is
stripped and, for large libraries, an instrument folder is attempted;
otherwise the generic fallback or the Other folder applies. -/
def parseBankNameToPath (name : String) : List String :=
  match findLibrary prefixPatterns name with
  | some (len, libraryName) =>
    let rest := jsTrim ⟨name.data.drop len⟩
    if libraryName ∈ librariesWithSubfolders then
      match extractInstrumentFolder rest with
      | (some instrument, displayName) => [libraryName, instrument, displayName]
      | (none, _) => [libraryName, rest]
    else [libraryName, rest]
  | none =>
    match jsMatch false genericRE name with
    | some m => [m.cap1.getD "", m.cap2.getD ""]
    | none => ["Other", name]

/-- Counterexample to claim C1 as stated: the classifier does not map
the name NICRQ Amati Viola Longs to the folder Native Instruments. -/
theorem parseBankNameToPath_nicrq_counterexample :
    parseBankNameToPath "NICRQ Amati Viola Longs" ≠
      ["Native Instruments", "Amati Viola Longs"] := by decide

/-- Claim C1 amended: classifying the bank name NICRQ Amati Viola Longs
yields the path with library label NI Cremona Quartet and leaf Amati
Viola Longs: the exact-code prefix rule for NICRQ, whose label is NI
Cremona Quartet, fires before the generic NI fallback rule labelled
Native Instruments. -/
theorem parseBankNameToPath_nicrq :
    parseBankNameToPath "NICRQ Amati Viola Longs" =
      ["NI Cremona Quartet", "Amati Viola Longs"] := by decide

/-- Counterexample to claim C2 as stated: the bank name 8DC Century Ens
Lite CB resolves through the 8Dio Century prefix rule with remainder
Century Ens Lite CB and yields a three-level path, but its middle
element is not Basses. -/
theorem parseBankNameToPath_century_cb_counterexample :
    (parseBankNameToPath "8DC Century Ens Lite CB").head? = some "8Dio Century" ∧
    (parseBankNameToPath "8DC Century Ens Lite CB").length = 3 ∧
    (parseBankNameToPath "8DC Century Ens Lite CB")[1]? ≠ some "Basses" := by decide

/-- Claim C2 amended: classifying 8DC Century Ens Lite CB (prefix rule
8Dio Century, remainder Century Ens Lite CB) yields the three-level
path whose middle element is the instrument folder labeled Century Ens
Lite CB: the full-phrase Century pattern of the first cascade matches
and its capture becomes the folder label, so the case-sensitive CB
abbreviation rule of the second cascade, which would have produced
Basses, is never consulted. -/
theorem parseBankNameToPath_century_cb :
    parseBankNameToPath "8DC Century Ens Lite CB" =
      ["8Dio Century", "Century Ens Lite CB", "Century Ens Lite CB"] := by decide

/-! ## parseReabankFile (src/lib/reabankParser.ts lines 89 to 232).
The source mutates bank objects that are already referenced from the
result array, so the embedding keeps a heap of created bank objects,
the list of indices pushed into the result array, and the index of the
current bank; the result reads every pushed slot at the end, exactly
as the shared references make the source behave. -/

/-- Consume the regular expression fragment matching one or more
whitespace characters; fails when none is present. -/
def takeWs1 (l : List Char) : Option (List Char) :=
  if l.takeWhile isJsWs = [] then none else some (l.dropWhile isJsWs)

/-- Consume the fragment matching one or more decimal digits, returning
the digit run and the remainder; fails when none is present. -/
def takeDigits1 (l : List Char) : Option (List Char × List Char) :=
  let ds := l.takeWhile Char.isDigit
  if ds = [] then none else some (ds, l.dropWhile Char.isDigit)

/-- Tail of a match of whitespace-then-rest: the greedy whitespace run
followed by the non-empty remainder captured by a final dot-plus
group.  When the remainder after the whitespace run is empty the
backtracking of the whitespace quantifier surrenders its last
character to the group (this only arises on lines with trailing
whitespace, which the callers have already trimmed away). -/
def wsThenRest (r : List Char) : Option String :=
  let ws := r.takeWhile isJsWs
  let tail := r.dropWhile isJsWs
  if ws = [] then none
  else if tail ≠ [] then some (List.asString tail)
  else if 2 ≤ ws.length then (ws.getLast?).map (fun c => List.asString [c])
  else none

/-- Match of a bank definition line against the anchored pattern Bank,
whitespace, digits, whitespace, digits, whitespace, name (reabank
parser line 120): the two numbers and the raw name text. -/
def matchBankLine (line : String) : Option (Nat × Nat × String) :=
  match line.data with
  | 'B' :: 'a' :: 'n' :: 'k' :: r0 =>
    match takeWs1 r0 with
    | none => none
    | some r1 =>
      match takeDigits1 r1 with
      | none => none
      | some (d1, r2) =>
        match takeWs1 r2 with
        | none => none
        | some r3 =>
          match takeDigits1 r3 with
          | none => none
          | some (d2, r4) =>
            (wsThenRest r4).map (fun name => (digitsVal d1, digitsVal d2, name))
  | _ => none

/-- Match of an articulation entry line against the anchored pattern
digits, whitespace, name (reabank parser line 166). -/
def matchArtLine (line : String) : Option (Nat × String) :=
  match takeDigits1 line.data with
  | none => none
  | some (ds, r1) => (wsThenRest r1).map (fun name => (digitsVal ds, name))

/-- Search for the metadata fragment key, equals sign, non-empty run of
non-whitespace characters anywhere in a line, returning the captured
value of the leftmost occurrence (reabank parser lines 145 to 159). -/
def findKeyVal (key : Char) : List Char → Option String
  | [] => none
  | k :: rest =>
    match rest with
    | '=' :: tail =>
      if k = key then
        let v := tail.takeWhile (fun c => !isJsWs c)
        if v = [] then findKeyVal key rest else some (List.asString v)
      else findKeyVal key rest
    | _ => findKeyVal key rest

/-- Reaticulate color names to color indices (reabank parser lines 47
to 64). -/
def COLOR_MAP : List (String × Nat) :=
  [("default", 0), ("long", 1), ("long-light", 2), ("long-dark", 3),
   ("short", 4), ("short-light", 5), ("short-dark", 6), ("textured", 7),
   ("fx", 8), ("legato", 9), ("staccato", 10), ("tremolo", 11),
   ("trill", 12), ("pizz", 13), ("harmonics", 14), ("percussion", 15)]

/-- Lookup in COLOR_MAP with default index zero. -/
def colorIndexOf (name : String) : Nat :=
  ((COLOR_MAP.find? (fun p => p.1 = name)).map Prod.snd).getD 0

/-- Pending articulation metadata: the color, icon and output fields
captured from the last metadata line. -/
structure MetaRec where
  color : Option String
  icon : Option String
  output : Option String
deriving DecidableEq, Repr

/-- Parser state of parseReabankFile: heap of created bank objects,
indices pushed into the result array, index of the current bank,
pending metadata, and accumulated errors. -/
structure RPState where
  heap : List ArticulationSet
  pushes : List Nat
  current : Option Nat
  meta : Option MetaRec
  errors : List String
deriving Repr

def modifyIdx : List α → Nat → (α → α) → List α
  | [], _, _ => []
  | a :: t, 0, f => f a :: t
  | a :: t, n + 1, f => a :: modifyIdx t n f

/-- Derived articulation fields computed from the output specification
(reabank parser lines 171 to 192): the MIDI messages and the key
switch. -/
def outputToMidi (output : Option String) : List MidiMessage × Option JSNum :=
  match output with
  | some o =>
    if strStartsWith o "note:" then
      let noteNum := jsParseInt ⟨o.data.drop 5⟩
      ([⟨0x90, noteNum, .num 127⟩], some noteNum)
    else if strStartsWith o "cc:" then
      let parts := (splitChar ',' (o.data.drop 3)).map List.asString
      if 2 ≤ parts.length then
        ([⟨0xB0, jsParseInt (parts.getD 0 ""), jsParseInt (parts.getD 1 "")⟩], none)
      else ([], none)
    else ([], none)
  | none => ([], none)

/-- One line of the parseReabankFile loop (reabank parser lines 102 to
218), in the branch order of the source: skip blank lines, skip plain
comment lines, handle bank definition lines (pushing the current bank
object before the format check), metadata lines, then articulation
entry lines. -/
def parseReabankLine (st : RPState) (idx : Nat) (rawLine : String) : RPState :=
  let line := jsTrim rawLine
  if line = "" then st
  else if strStartsWith line "//" && !strStartsWith line "//!" then st
  else if strStartsWith line "Bank " then
    let st1 :=
      match st.current with
      | some i => { st with pushes := st.pushes ++ [i] }
      | none => st
    match matchBankLine line with
    | some (msb, lsb, nameRaw) =>
      let name := jsTrim nameRaw
      let newBank : ArticulationSet :=
        { name := name,
          fileName := toString msb ++ "-" ++ toString lsb ++ "-" ++ name,
          msb := .num msb, lsb := .num lsb, articulations := [] }
      { st1 with heap := st1.heap ++ [newBank], current := some st1.heap.length,
                 meta := none }
    | none =>
      { st1 with errors := st1.errors ++
          ["Line " ++ toString (idx + 1) ++ ": Invalid bank format: " ++ line] }
  else if strStartsWith line "//!" then
    { st with meta := some ⟨findKeyVal 'c' line.data,
        findKeyVal 'i' line.data, findKeyVal 'o' line.data⟩ }
  else
    match matchArtLine line, st.current with
    | some (artNumber, artNameRaw), some ci =>
      let artName := jsTrim artNameRaw
      let output := st.meta.bind (fun m => m.output)
      let (midiMessages, keySwitch) := outputToMidi output
      let colorName := (st.meta.bind (fun m => m.color)).getD "default"
      let colorIndex := colorIndexOf colorName
      { st with
          heap := modifyIdx st.heap ci (fun b =>
            { b with articulations := b.articulations ++
              [{ id := b.msb.render ++ "-" ++ b.lsb.render ++ "-" ++ toString artNumber,
                 number := artNumber, name := artName,
                 shortName := if 8 < artName.length then ⟨artName.data.take 8⟩ else artName,
                 description := artName ++ " (PC " ++ toString artNumber ++ ")",
                 color := colorIndex, group := 0,
                 icon := st.meta.bind (fun m => m.icon),
                 output := output, articulationType := 0,
                 midiMessages := midiMessages, keySwitch := keySwitch }] }),
          meta := none }
    | _, _ => st

def runReabankLines : RPState → Nat → List String → RPState
  | st, _, [] => st
  | st, i, l :: rest => runReabankLines (parseReabankLine st i l) (i + 1) rest

/-- Parse a reabank file: run every line through the loop, flush the
still-open current bank, and read every pushed heap slot. -/
def parseReabankFile (content : String) : ParsedReabank :=
  let final := runReabankLines ⟨[], [], none, none, []⟩ 0 (splitLines content)
  let pushes :=
    match final.current with
    | some i => final.pushes ++ [i]
    | none => final.pushes
  { banks := pushes.map (fun i => final.heap.getD i ⟨"", "", .nan, .nan, []⟩),
    errors := final.errors }

/-- Claim C3, evaluated at the failing input: the malformed line Bank
42 1 is recorded as an error with its line number, does not change the
current bank, and parsing continues so the later valid declaration
still succeeds; but because the bank line branch pushes the current
bank before checking the format, the malformed line flushes Alpha a
first time and the next valid declaration flushes the same object
again, so the returned list holds three records for two valid
declarations, Alpha appearing twice.  In isolation, with no open bank,
the malformed line behaves exactly as the claim says. -/
theorem parseReabankFile_malformed_bank_bug :
    ((parseReabankFile "Bank 5 0 Alpha\nBank 42 1\nBank 6 0 Beta").banks.map
        (fun b => b.name) = ["Alpha", "Alpha", "Beta"]) ∧
    ((parseReabankFile "Bank 5 0 Alpha\nBank 42 1\nBank 6 0 Beta").errors =
        ["Line 2: Invalid bank format: Bank 42 1"]) ∧
    ((parseReabankFile "Bank 5 0 Alpha\nBank 42 1\nBank 6 0 Beta").banks.length = 3) ∧
    ((parseReabankFile "Bank 42 1\nBank 2 0 Hello").banks.map (fun b => b.name) =
        ["Hello"]) ∧
    ((parseReabankFile "Bank 42 1\nBank 2 0 Hello").errors =
        ["Line 1: Invalid bank format: Bank 42 1"]) := by decide

/-! ## parseReabankContent (src/app/api/reabanks/route.ts lines 19 to
83).  This parser pushes each bank object at creation and mutates the
last pushed object when articulation lines follow, so the embedding
appends at creation and modifies the last element afterwards; the
current bank exists exactly when the list is non-empty, since the
source never resets it. -/

structure RArt where
  number : Nat
  name : String
  color : String
deriving DecidableEq, Repr

structure RBank where
  msb : JSNum
  lsb : JSNum
  name : String
  articulations : List RArt
deriving DecidableEq, Repr

/-- Consume the fragment matching one or more non-whitespace
characters, returning the run and the remainder. -/
def takeNonWs1 (l : List Char) : Option (List Char × List Char) :=
  let t := l.takeWhile (fun c => !isJsWs c)
  if t = [] then none else some (t, l.dropWhile (fun c => !isJsWs c))

/-- Match of a bank definition line against the anchored pattern Bank,
whitespace, token, whitespace, token, whitespace, name (route.ts line
35), where tokens are non-whitespace runs. -/
def matchBankLineTok (line : String) : Option (String × String × String) :=
  match line.data with
  | 'B' :: 'a' :: 'n' :: 'k' :: r0 =>
    match takeWs1 r0 with
    | none => none
    | some r1 =>
      match takeNonWs1 r1 with
      | none => none
      | some (t1, r2) =>
        match takeWs1 r2 with
        | none => none
        | some r3 =>
          match takeNonWs1 r3 with
          | none => none
          | some (t2, r4) =>
            (wsThenRest r4).map
              (fun name => (List.asString t1, List.asString t2, name))
  | _ => none

/-- Tagged bank record: the record together with the ghost flag telling
whether its bank numbers came from the wildcard counter.  The flag is
instrumentation for the statements below; dropping it yields the
records the source builds. -/
structure RBankT where
  bank : RBank
  fromWildcard : Bool
deriving DecidableEq, Repr

/-- State of the route.ts parser: pushed banks (tagged), the pending
metadata color, and the wildcard counter. -/
structure RCState where
  banks : List RBankT
  meta : Option String
  bankCounter : Nat
deriving DecidableEq, Repr

def modifyLast : List α → (α → α) → List α
  | [], _ => []
  | [a], f => [f a]
  | a :: b :: t, f => a :: modifyLast (b :: t) f

/-- One line of the parseReabankContent loop (route.ts lines 27 to 80),
in the branch order of the source: blank lines, bank definition lines
with the wildcard counter policy, metadata lines setting only the
color, then articulation lines appended to the current bank. -/
def parseRCLine (st : RCState) (rawLine : String) : RCState :=
  let line := jsTrim rawLine
  if line = "" then st
  else if strStartsWith line "Bank " then
    match matchBankLineTok line with
    | some (msbStr, lsbStr, name) =>
      if msbStr = "*" || lsbStr = "*" then
        let c := st.bankCounter + 1
        { banks := st.banks ++ [⟨⟨.num c, .num 0, jsTrim name, []⟩, true⟩],
          meta := none, bankCounter := c }
      else
        { banks := st.banks ++
            [⟨⟨jsParseInt msbStr, jsParseInt lsbStr, jsTrim name, []⟩, false⟩],
          meta := none, bankCounter := st.bankCounter }
    | none => st
  else if strStartsWith line "//!" then
    match findKeyVal 'c' line.data with
    | some c => { st with meta := some c }
    | none => st
  else
    match matchArtLine line with
    | some (num, nameRaw) =>
      if st.banks ≠ [] then
        { st with
            banks := modifyLast st.banks (fun b =>
              { b with bank := { b.bank with articulations :=
                  b.bank.articulations ++
                    [⟨num, jsTrim nameRaw, (st.meta).getD "default"⟩] } }),
            meta := none }
      else st
    | none => st

def runRCLines : RCState → List String → RCState
  | st, [] => st
  | st, l :: rest => runRCLines (parseRCLine st l) rest

/-- The tagged run of the route.ts parser over a whole file. -/
def parseReabankTagged (content : String) : RCState :=
  runRCLines ⟨[], none, 0⟩ (splitLines content)

/-- Parse a reabank file as the API route does: the tagged run with the
ghost flags dropped. -/
def parseReabankContent (content : String) : List RBank :=
  (parseReabankTagged content).banks.map (fun b => b.bank)

/-- Key a route bank receives after its conversion into an
ArticulationSet by the template builder page (page.tsx lines 32 to 53
set msb and lsb unchanged, line 530 renders the key). -/
def getBankKeyR (b : RBank) : String := b.msb.render ++ "-" ++ b.lsb.render

/-- Wildcard bank numbers assigned during a run. -/
def wildcardMsbs (content : String) : List JSNum :=
  ((parseReabankTagged content).banks.filter (fun b => b.fromWildcard)).map
    (fun b => b.bank.msb)

/-- Wildcard values recorded in a state. -/
def stVals (st : RCState) : List JSNum :=
  (st.banks.filter (fun b => b.fromWildcard)).map (fun b => b.bank.msb)

theorem modifyLast_filter_map (l : List RBankT) (f : RBankT → RBankT)
    (hf : ∀ b, (f b).fromWildcard = b.fromWildcard ∧ (f b).bank.msb = b.bank.msb) :
    ((modifyLast l f).filter (fun b => b.fromWildcard)).map (fun b => b.bank.msb) =
      (l.filter (fun b => b.fromWildcard)).map (fun b => b.bank.msb) := by
  induction l with
  | nil => rfl
  | cons a t ih =>
    cases t with
    | nil =>
      show ((modifyLast [a] f).filter _).map _ = _
      rw [modifyLast]
      obtain ⟨h1, h2⟩ := hf a
      by_cases hw : a.fromWildcard
      · simp [List.filter, h1, hw, h2]
      · simp [List.filter, h1, hw]
    | cons b t' =>
      show (((a :: modifyLast (b :: t') f).filter _).map _) = _
      by_cases hw : a.fromWildcard
      · simp only [List.filter, hw, List.map_cons]
        rw [ih]
        rfl
      · simp only [List.filter, hw]
        rw [ih]
        rfl

theorem parseRCLine_step (st : RCState) (l : String) :
    (stVals (parseRCLine st l) = stVals st ∧
      (parseRCLine st l).bankCounter = st.bankCounter) ∨
    (stVals (parseRCLine st l) = stVals st ++ [JSNum.num (st.bankCounter + 1)] ∧
      (parseRCLine st l).bankCounter = st.bankCounter + 1) := by
  simp only [parseRCLine]
  split
  · exact Or.inl ⟨rfl, rfl⟩
  · split
    · split
      · split
        · refine Or.inr ⟨?_, rfl⟩
          simp [stVals, List.filter_append]
        · refine Or.inl ⟨?_, rfl⟩
          simp [stVals, List.filter_append, List.filter]
      · exact Or.inl ⟨rfl, rfl⟩
    · split
      · split
        · exact Or.inl ⟨rfl, rfl⟩
        · exact Or.inl ⟨rfl, rfl⟩
      · split
        · split
          · refine Or.inl ⟨?_, rfl⟩
            simp only [stVals]
            exact modifyLast_filter_map _ _ (fun b => ⟨rfl, rfl⟩)
          · exact Or.inl ⟨rfl, rfl⟩
        · exact Or.inl ⟨rfl, rfl⟩

theorem runRCLines_vals (lines : List String) :
    ∀ st : RCState, ∃ k,
      stVals (runRCLines st lines) =
        stVals st ++ (List.range' (st.bankCounter + 1) k).map JSNum.num ∧
      (runRCLines st lines).bankCounter = st.bankCounter + k := by
  induction lines with
  | nil =>
    intro st
    exact ⟨0, by show stVals st = _; simp, by show st.bankCounter = _; simp⟩
  | cons l rest ih =>
    intro st
    rcases parseRCLine_step st l with ⟨hv, hc⟩ | ⟨hv, hc⟩
    · obtain ⟨k, hk1, hk2⟩ := ih (parseRCLine st l)
      refine ⟨k, ?_, ?_⟩
      · show stVals (runRCLines (parseRCLine st l) rest) = _
        rw [hk1, hv, hc]
      · show (runRCLines (parseRCLine st l) rest).bankCounter = _
        rw [hk2, hc]
    · obtain ⟨k, hk1, hk2⟩ := ih (parseRCLine st l)
      refine ⟨k + 1, ?_, ?_⟩
      · show stVals (runRCLines (parseRCLine st l) rest) = _
        rw [hk1, hv, hc, List.range'_succ, List.append_assoc]
        rfl
      · show (runRCLines (parseRCLine st l) rest).bankCounter = _
        rw [hk2, hc]
        omega

/-- Claim C6: parsing two wildcard bank declarations yields BankRecords
with numbers one-zero and two-zero, and in general the wildcard
counter hands out exactly the values one, two, three and so on, in
order, within a parse: the wildcard-created records of any input carry
the initial segment of the positive integers as their bank numbers,
monotonically and without reuse. -/
theorem parseReabankContent_wildcard_counter :
    (parseReabankContent "Bank * * Wildcard One\nBank * * Wildcard Two" =
      [⟨.num 1, .num 0, "Wildcard One", []⟩, ⟨.num 2, .num 0, "Wildcard Two", []⟩]) ∧
    (∀ content, ∃ k, wildcardMsbs content = (List.range' 1 k).map JSNum.num) := by
  refine ⟨by decide, fun content => ?_⟩
  obtain ⟨k, hk1, _⟩ := runRCLines_vals (splitLines content) ⟨[], none, 0⟩
  exact ⟨k, by simpa [wildcardMsbs, parseReabankTagged, stVals] using hk1⟩

/-- Claim C10: an input mixing a wildcard declaration with an explicit
Bank 1 0 declaration yields two distinct BankRecords carrying the same
bank-number pair, so the selection key renders identically for both and
their selection state is merged. -/
theorem getBankKey_wildcard_collision :
    (parseReabankContent "Bank * * Wild\nBank 1 0 Explicit" =
      [⟨.num 1, .num 0, "Wild", []⟩, ⟨.num 1, .num 0, "Explicit", []⟩]) ∧
    ((parseReabankTagged "Bank * * Wild\nBank 1 0 Explicit").banks.map
      (fun b => b.fromWildcard) = [true, false]) ∧
    (getBankKeyR ⟨.num 1, .num 0, "Wild", []⟩ =
      getBankKeyR ⟨.num 1, .num 0, "Explicit", []⟩) ∧
    (getBankKeyR ⟨.num 1, .num 0, "Wild", []⟩ = "1-0") ∧
    ((⟨.num 1, .num 0, "Wild", []⟩ : RBank) ≠ ⟨.num 1, .num 0, "Explicit", []⟩) := by
  decide

/-! ## Reaper project file generator (src/lib/rppGenerator.ts).  The
source draws random hexadecimal digits for every identifier; the
embedding threads an explicit stream of digits (the supply) and a
counter of consumed digits, so one run of the source corresponds to
one supply.  The output is assembled from pieces, each either fixed
text or one generated identifier, and rendered by concatenation; the
line structure mirrors the pushes of the source one for one. -/

structure BankArt where
  number : Int
  name : String
deriving DecidableEq, Repr

structure BankInfo where
  msb : Int
  lsb : Int
  name : String
  articulations : List BankArt
deriving DecidableEq, Repr

structure TrackConfig where
  bank : BankInfo
  name : String
  color : Option String
deriving DecidableEq, Repr

structure FolderConfig where
  name : String
  color : Option String
  tracks : List TrackConfig
deriving DecidableEq, Repr

structure ProjectConfig where
  name : String
  tempo : Int
  sampleRate : Int
  tracks : List TrackConfig
  folders : Option (List FolderConfig)
deriving DecidableEq, Repr

/-- Stream of random hexadecimal digits, one value per call of the
floor of sixteen times Math.random in the source. -/
def Supply : Type := Nat → Fin 16

def hexDigitU (d : Fin 16) : Char := "0123456789ABCDEF".data.getD d.1 '0'

def hexDigitL (d : Fin 16) : Char := "0123456789abcdef".data.getD d.1 '0'

/-- A run of n hexadecimal digits drawn from the supply starting at
position k. -/
def hexSeg (h : Fin 16 → Char) (sup : Supply) (k n : Nat) : List Char :=
  (List.range n).map (fun i => h (sup (k + i)))

/-- Generate a unique GUID in Reaper format, braces included, from the
32 supply digits starting at position k (rppGenerator lines 46 to
51). -/
def generateGUID (sup : Supply) (k : Nat) : String :=
  ⟨'{' :: hexSeg hexDigitU sup k 8 ++ '-' :: hexSeg hexDigitU sup (k + 8) 4 ++
   '-' :: hexSeg hexDigitU sup (k + 12) 4 ++ '-' :: hexSeg hexDigitU sup (k + 16) 4 ++
   '-' :: hexSeg hexDigitU sup (k + 20) 12 ++ ['}']⟩

/-- Generate a lowercase UUID for Reaticulate, without braces, from the
32 supply digits starting at position k (rppGenerator lines 56 to
61). -/
def generateReaticulateGUID (sup : Supply) (k : Nat) : String :=
  ⟨hexSeg hexDigitL sup k 8 ++ '-' :: hexSeg hexDigitL sup (k + 8) 4 ++
   '-' :: hexSeg hexDigitL sup (k + 12) 4 ++ '-' :: hexSeg hexDigitL sup (k + 16) 4 ++
   '-' :: hexSeg hexDigitL sup (k + 20) 12⟩

/-- JavaScript ToInt32 of an integer. -/
def toInt32 (n : Int) : Int := (n + 2 ^ 31) % 2 ^ 32 - 2 ^ 31

/-- Bank name hash (rppGenerator lines 67 to 76): the 32-bit string
hash, made into a large negative number when non-negative. -/
def generateBankHash (bankName : String) : Int :=
  let hash := bankName.data.foldl
    (fun hash c => toInt32 (toInt32 (hash * 32) - hash + (c.toNat : Int))) 0
  if hash < 0 then hash else -(hash.natAbs : Int) - 1000000000

/-- Remove the first occurrence of a character, the JavaScript
String.prototype.replace with a one-character string pattern and empty
replacement. -/
def removeFirstChar (c : Char) : List Char → List Char
  | [] => []
  | a :: t => if a = c then t else a :: removeFirstChar c t

def isHexDigit (c : Char) : Bool :=
  c.isDigit || ('a' ≤ c && c ≤ 'f') || ('A' ≤ c && c ≤ 'F')

def hexDigitVal (c : Char) : Nat :=
  if c.isDigit then c.toNat - 48
  else if 'a' ≤ c && c ≤ 'f' then c.toNat - 87
  else c.toNat - 55

/-- JavaScript parseInt with radix 16 of a two-character slice,
followed by the ToInt32 coercion the bitwise color assembly applies:
the longest leading hexadecimal run gives the value and NaN becomes
zero. -/
def hexByte (l : List Char) : Nat :=
  let ds := l.takeWhile isHexDigit
  if ds = [] then 0 else ds.foldl (fun n c => n * 16 + hexDigitVal c) 0

/-- Convert a hex color to the Reaper native color integer in BGR
order (rppGenerator lines 82 to 88). -/
def hexToReaperColor (hex : String) : Nat :=
  let h := removeFirstChar '#' hex.data
  let r := hexByte (h.take 2)
  let g := hexByte ((h.drop 2).take 2)
  let b := hexByte ((h.drop 4).take 2)
  0x01000000 ||| (b <<< 16) ||| (g <<< 8) ||| r

/-- Instrument family to color mapping, in declaration order
(rppGenerator lines 93 to 113). -/
def FAMILY_COLORS : List (String × String) :=
  [("violin", "#8B4513"), ("viola", "#A0522D"), ("cello", "#CD853F"),
   ("bass", "#DEB887"), ("flute", "#87CEEB"), ("oboe", "#B0C4DE"),
   ("clarinet", "#6495ED"), ("bassoon", "#4682B4"), ("horn", "#DAA520"),
   ("trumpet", "#FFD700"), ("trombone", "#FFA500"), ("tuba", "#FF8C00"),
   ("timpani", "#808080"), ("percussion", "#696969"), ("harp", "#DDA0DD"),
   ("piano", "#2F4F4F"), ("strings", "#8B4513"), ("brass", "#DAA520"),
   ("woodwinds", "#87CEEB")]

/-- Track color from the bank name: first family keyword contained in
the lowercased name wins, with the default pink (rppGenerator lines
118 to 129). -/
def getTrackColor (bankName : String) : Nat :=
  let lowerName := lowerStr bankName
  match FAMILY_COLORS.find? (fun p => strIncludes lowerName p.1) with
  | some p => hexToReaperColor p.2
  | none => hexToReaperColor "#ff69b4"

/-- Escape content for the RPP format: every double quote receives a
backslash (rppGenerator line 135). -/
def escapeRPP (s : String) : String :=
  ⟨s.data.flatMap (fun c => if c = '"' then ['\\', '"'] else [c])⟩

/-- One escaped character of JSON.stringify string output. -/
def jsonEscChar (c : Char) : List Char :=
  if c = '"' then ['\\', '"']
  else if c = '\\' then ['\\', '\\']
  else if c = '\x08' then ['\\', 'b']
  else if c = '\x0c' then ['\\', 'f']
  else if c = '\n' then ['\\', 'n']
  else if c = '\x0d' then ['\\', 'r']
  else if c = '\t' then ['\\', 't']
  else if c.toNat < 0x20 then
    ['\\', 'u', '0', '0', hexDigitL ⟨c.toNat / 16 % 16, Nat.mod_lt _ (by omega)⟩,
     hexDigitL ⟨c.toNat % 16, Nat.mod_lt _ (by omega)⟩]
  else [c]

/-- JSON.stringify output for a string value, quotes included. -/
def jsonStr (s : String) : String := ⟨'"' :: s.data.flatMap jsonEscChar ++ ['"']⟩

/-- Output pieces: fixed text or one generated identifier. -/
inductive Piece where
  | fx (s : String)
  | idT (s : String)
deriving DecidableEq, Repr

def pieceText : Piece → String
  | .fx s => s
  | .idT s => s

def renderP (ps : List Piece) : List Char :=
  (ps.map (fun p => (pieceText p).data)).flatten

/-- Join the line piece lists with newline characters, as the final
join of the pushed lines does (rppGenerator line 276). -/
def renderLinesAux : List (List Piece) → List Piece
  | [] => []
  | [l] => l
  | l :: l' :: rest => l ++ Piece.fx "\n" :: renderLinesAux (l' :: rest)

/-- The track-level Reaticulate extension JSON (rppGenerator lines 332
to 346), split at the generated bank identifier: JSON.stringify emits
the keys in declaration order with no spacing. -/
def reaticulateJsonBefore : String := "\x7b\"banks\":[\x7b\"t\":\"g\",\"v\":\""

def reaticulateJsonAfter (bankHash : Int) (bankName : String) : String :=
  "\",\"dstbus\":1,\"h\":" ++ toString bankHash ++ ",\"name\":" ++ jsonStr bankName ++
  ",\"src\":17,\"dst\":17\x7d],\"y\":0,\"v\":1,\"defchan\":1\x7d"

/-- One track block (rppGenerator lines 283 to 393): the lines pushed,
line for line, and the bank identifier mapping entry the block
contributes to the project extension state.  The supply positions k to
k+127 feed the four generated identifiers in source call order. -/
def generateTrackBlock (sup : Supply) (k : Nat) (track : TrackConfig)
    (folderDepth : Nat) : List (List Piece) × (String × Int) :=
  let trackGuid := generateGUID sup k
  let kontaktGuid := generateGUID sup (k + 32)
  let reaticGuid := generateGUID sup (k + 64)
  let bankGuid := generateReaticulateGUID sup (k + 96)
  let bankHash := generateBankHash track.bank.name
  let msblsb := track.bank.msb * 128 + track.bank.lsb
  let trackColor :=
    match track.color with
    | some c => hexToReaperColor c
    | none => getTrackColor track.bank.name
  let isbusLine : List Piece :=
    if 0 < folderDepth then [.fx ("    ISBUS " ++ toString folderDepth ++ " -1")]
    else [.fx "    ISBUS 0 0"]
  ([[.fx "  <TRACK ", .idT trackGuid],
    [.fx ("    NAME \"" ++ escapeRPP track.name ++ "\"")],
    [.fx ("    PEAKCOL " ++ toString trackColor)],
    [.fx "    BEAT -1"],
    [.fx "    AUTOMODE 0"],
    [.fx "    VOLPAN 1 0 -1 -1 1"],
    [.fx "    MUTESOLO 0 0 0"],
    [.fx "    IPHASE 0"],
    [.fx "    PLAYOFFS 0 1"],
    isbusLine,
    [.fx "    BUSCOMP 0 0 0 0 0"],
    [.fx "    SHOWINMIX 1 0.6667 0.5 1 0.5 -1 -1 -1"],
    [.fx "    SEL 0"],
    [.fx "    REC 0 0 1 0 0 0 0 0"],
    [.fx "    VU 2"],
    [.fx "    TRACKHEIGHT 0 0 0 0 0 0"],
    [.fx "    INQ 0 0 0 0.5 100 0 0 100"],
    [.fx "    NCHAN 2"],
    [.fx "    FX 1"],
    [.fx "    TRACKID ", .idT trackGuid],
    [.fx "    PERF 0"],
    [.fx "    <EXT"],
    [.fx ("      reaticulate '2" ++ reaticulateJsonBefore), .idT bankGuid,
     .fx (reaticulateJsonAfter bankHash track.bank.name ++ "'")],
    [.fx "    >"],
    [.fx "    MIDIOUT -1"],
    [.fx "    MAINSEND 1 0"],
    [.fx "    <FXCHAIN"],
    [.fx "      WNDRECT 0 0 0 0"],
    [.fx "      SHOW 0"],
    [.fx "      LASTSEL 0"],
    [.fx "      DOCKED 0"],
    [.fx "      BYPASS 0 0 0"],
    [.fx "      <JS jsfx/Reaticulate.jsfx \"\""],
    [.fx "        0 0 0 -1 0 0 0 0 1 8421504 8421504 8421504 8421504 8421504 8421504 8421504 8421504 8421504 8421504 8421504 8421504 8421504 8421504 8421504 8421504 0 0 0 0 0 0 0 0 0 0 0 0 0 0 0 0 0 0 0 0 0 0 0 0 0 0 0 0 0 0 0 0 0 0 0 0 12 0 0"],
    [.fx "      >"],
    [.fx "      FLOATPOS 0 0 0 0"],
    [.fx "      FXID ", .idT reaticGuid],
    [.fx "      WAK 0 0"],
    [.fx "      BYPASS 0 0 0"],
    [.fx "      <VST \"VST3: Kontakt (Native Instruments GmbH)\" \"Kontakt.vst3\" 0 \"\" ",
     .idT kontaktGuid, .fx " \"\""],
    [.fx "        47k9Krn+5e4CAAAAAQAAAAAAAAACAAAAAAAAAAIAAAABAAAAAAAAAAIAAAAAAAAATAAAAAEAAAAAABAA"],
    [.fx "      >"],
    [.fx "      FLOATPOS 0 0 0 0"],
    [.fx "      FXID ", .idT kontaktGuid],
    [.fx "      WAK 0 0"],
    [.fx "      BYPASS 0 0 0"],
    [.fx "    >"],
    [.fx "  >"]],
   (bankGuid, msblsb))

/-- The folder track block (rppGenerator lines 198 to 224). -/
def folderTrackLines (sup : Supply) (k : Nat) (folder : FolderConfig) :
    List (List Piece) :=
  let folderGuid := generateGUID sup k
  let folderColor :=
    match folder.color with
    | some c => hexToReaperColor c
    | none => getTrackColor folder.name
  [[.fx "  <TRACK ", .idT folderGuid],
   [.fx ("    NAME \"" ++ escapeRPP folder.name ++ "\"")],
   [.fx ("    PEAKCOL " ++ toString folderColor)],
   [.fx "    BEAT -1"],
   [.fx "    AUTOMODE 0"],
   [.fx "    VOLPAN 1 0 -1 -1 1"],
   [.fx "    MUTESOLO 0 0 0"],
   [.fx "    IPHASE 0"],
   [.fx "    PLAYOFFS 0 1"],
   [.fx "    ISBUS 1 1"],
   [.fx "    BUSCOMP 0 0 0 0 0"],
   [.fx "    SHOWINMIX 1 0.6667 0.5 1 0.5 -1 -1 -1"],
   [.fx "    SEL 0"],
   [.fx "    REC 0 0 1 0 0 0 0 0"],
   [.fx "    VU 2"],
   [.fx "    TRACKHEIGHT 0 0 0 0 0 0"],
   [.fx "    INQ 0 0 0 0.5 100 0 0 100"],
   [.fx "    NCHAN 2"],
   [.fx "    FX 1"],
   [.fx "    TRACKID ", .idT folderGuid],
   [.fx "    PERF 0"],
   [.fx "    MIDIOUT -1"],
   [.fx "    MAINSEND 1 0"],
   [.fx "  >"]]

/-- Tracks inside one folder (rppGenerator lines 228 to 237): the last
track carries folder depth two, the others zero. -/
def folderTracksGen (sup : Supply) : Nat → List TrackConfig →
    List (List Piece) × List (String × Int) × Nat
  | k, [] => ([], [], k)
  | k, t :: rest =>
    let isLast := rest = []
    let res := generateTrackBlock sup k t (if isLast then 2 else 0)
    let res2 := folderTracksGen sup (k + 128) rest
    (res.1 ++ res2.1, res.2 :: res2.2.1, res2.2.2)

/-- The folder loop (rppGenerator lines 195 to 239). -/
def foldersGen (sup : Supply) : Nat → List FolderConfig →
    List (List Piece) × List (String × Int) × Nat
  | k, [] => ([], [], k)
  | k, f :: rest =>
    let header := folderTrackLines sup k f
    let res := folderTracksGen sup (k + 32) f.tracks
    let res2 := foldersGen sup res.2.2 rest
    (header ++ res.1 ++ res2.1, res.2.1 ++ res2.2.1, res2.2.2)

/-- The standalone track loop (rppGenerator lines 242 to 249). -/
def standaloneTracksGen (sup : Supply) : Nat → List TrackConfig →
    List (List Piece) × List (String × Int) × Nat
  | k, [] => ([], [], k)
  | k, t :: rest =>
    let res := generateTrackBlock sup k t 0
    let res2 := standaloneTracksGen sup (k + 128) rest
    (res.1 ++ res2.1, res.2 :: res2.2.1, res2.2.2)

/-- Insert or update a key in the JavaScript object built from the
bank identifier mappings (rppGenerator lines 257 to 260): an existing
key keeps its position and receives the new value, a new key is
appended. -/
def objInsert (l : List (String × Int)) (key : String) (v : Int) : List (String × Int) :=
  if l.any (fun p => p.1 = key) then
    l.map (fun p => if p.1 = key then (key, v) else p)
  else l ++ [(key, v)]

/-- JSON text pieces of the msblsb_by_guid object entries, each
identifier in its own piece between fixed quotes. -/
def entriesPieces : List (String × Int) → List Piece
  | [] => []
  | [(g, v)] => [.fx "\"", .idT g, .fx ("\":" ++ toString v)]
  | (g, v) :: rest =>
    [.fx "\"", .idT g, .fx ("\":" ++ toString v), .fx ","] ++ entriesPieces rest

/-- The fixed project header lines (rppGenerator lines 149 to 189). -/
def rppHeaderLines (config : ProjectConfig) : List (List Piece) :=
  [[.fx "<REAPER_PROJECT 0.1 \"7.0\" 1234567890"],
   [.fx "  RIPPLE 0"],
   [.fx "  GROUPOVERRIDE 0 0 0"],
   [.fx "  AUTOXFADE 129"],
   [.fx "  ENVATTACH 3"],
   [.fx "  MIXERUIFLAGS 11 48"],
   [.fx "  PEAKGAIN 1"],
   [.fx "  FEEDBACK 0"],
   [.fx "  PANLAW 1"],
   [.fx "  PROJOFFS 0 0 0"],
   [.fx "  MAXPROJLEN 0 600"],
   [.fx "  GRID 3199 8 1 8 1 0 0 0"],
   [.fx "  TIMEMODE 1 5 -1 30 0 0 -1"],
   [.fx "  PANMODE 3"],
   [.fx "  CURSOR 0"],
   [.fx "  ZOOM 100 0 0"],
   [.fx "  VZOOMEX 6 0"],
   [.fx "  USE_REC_CFG 0"],
   [.fx "  RECMODE 1"],
   [.fx "  LOOP 0"],
   [.fx "  LOOPGRAN 0 4"],
   [.fx "  RECORD_PATH \"\" \"\""],
   [.fx "  RENDER_FILE \"\""],
   [.fx "  RENDER_FMT 0 2 0"],
   [.fx ("  TEMPO " ++ toString config.tempo ++ " 4 4")],
   [.fx "  PLAYRATE 1 0 0.25 4"],
   [.fx "  MASTERAUTOMODE 0"],
   [.fx "  MASTERTRACKHEIGHT 0 0"],
   [.fx "  MASTERMUTESOLO 0"],
   [.fx "  MASTERTRACKVIEW 0 0.6667 0.5 0.5 -1 -1 -1 0 0 0 -1 -1 0"],
   [.fx "  MASTERHWOUT 0 0 1 0 0 0 0 -1"],
   [.fx "  MASTER_NCH 2 2"],
   [.fx "  MASTER_VOLUME 1 0 -1 -1 1"],
   [.fx "  MASTER_PANMODE 3"],
   [.fx "  MASTER_FX 1"],
   [.fx "  MASTER_SEL 0"],
   [.fx ("  SAMPLERATE " ++ toString config.sampleRate ++ " 0 0")],
   [.fx "  <MASTERFXLIST"],
   [.fx "  >"]]

/-- The whole generator run (rppGenerator lines 141 to 277): header,
folder blocks, standalone tracks, the empty EXTENSIONS block, and the
EXTSTATE block when at least one bank mapping exists; the result is
the line piece lists and the collected bank identifier mappings. -/
def generateRPPparts (sup : Supply) (config : ProjectConfig) :
    List (List Piece) × List (String × Int) :=
  let fRes : List (List Piece) × List (String × Int) × Nat :=
    match config.folders with
    | some fs => if 0 < fs.length then foldersGen sup 0 fs else ([], [], 0)
    | none => ([], [], 0)
  let tRes := standaloneTracksGen sup fRes.2.2 config.tracks
  let bankGuidMappings := fRes.2.1 ++ tRes.2.1
  let extL : List (List Piece) := [[.fx "  <EXTENSIONS"], [.fx "  >"]]
  let stateL : List (List Piece) :=
    if 0 < bankGuidMappings.length then
      let msblsbByGuid :=
        bankGuidMappings.foldl (fun acc m => objInsert acc m.1 m.2) []
      let changeCookie := generateReaticulateGUID sup tRes.2.2
      [[.fx "  <EXTSTATE"],
       [.fx "    <REATICULATE"],
       [.fx "      CHANGE_COOKIE ", .idT changeCookie],
       [.fx "      STATE \x7b\"msblsb_by_guid\":\x7b"] ++ entriesPieces msblsbByGuid ++
         [Piece.fx "\x7d,\"gc_ok\":true\x7d"],
       [.fx "    >"],
       [.fx "  >"]]
    else []
  (rppHeaderLines config ++ fRes.1 ++ tRes.1 ++ extL ++ stateL ++ [[.fx ">"]],
   bankGuidMappings)

/-- Generate a complete RPP project file text. -/
def generateRPP (sup : Supply) (config : ProjectConfig) : String :=
  ⟨renderP (renderLinesAux (generateRPPparts sup config).1)⟩

/-- The bank identifier mappings a run collects. -/
def rppMappings (sup : Supply) (config : ProjectConfig) : List (String × Int) :=
  (generateRPPparts sup config).2

/-- Every track a generation request carries, folder tracks first, in
output order. -/
def allTracksOf (config : ProjectConfig) : List TrackConfig :=
  (match config.folders with
   | some fs => fs.flatMap (fun f => f.tracks)
   | none => []) ++ config.tracks

theorem generateTrackBlock_msblsb (sup : Supply) (k : Nat) (t : TrackConfig)
    (fd : Nat) : (generateTrackBlock sup k t fd).2.2 =
      t.bank.msb * 128 + t.bank.lsb := rfl

theorem standaloneTracksGen_snd (sup : Supply) (ts : List TrackConfig) :
    ∀ k, ((standaloneTracksGen sup k ts).2.1).map Prod.snd =
      ts.map (fun t => t.bank.msb * 128 + t.bank.lsb) := by
  induction ts with
  | nil => intro k; rfl
  | cons t rest ih =>
    intro k
    show ((generateTrackBlock sup k t 0).2 ::
      (standaloneTracksGen sup (k + 128) rest).2.1).map Prod.snd = _
    rw [List.map_cons, ih, generateTrackBlock_msblsb, List.map_cons]

theorem folderTracksGen_snd (sup : Supply) (ts : List TrackConfig) :
    ∀ k, ((folderTracksGen sup k ts).2.1).map Prod.snd =
      ts.map (fun t => t.bank.msb * 128 + t.bank.lsb) := by
  induction ts with
  | nil => intro k; rfl
  | cons t rest ih =>
    intro k
    show ((generateTrackBlock sup k t (if rest = [] then 2 else 0)).2 ::
      (folderTracksGen sup (k + 128) rest).2.1).map Prod.snd = _
    rw [List.map_cons, ih, generateTrackBlock_msblsb, List.map_cons]

theorem foldersGen_snd (sup : Supply) (fs : List FolderConfig) :
    ∀ k, ((foldersGen sup k fs).2.1).map Prod.snd =
      (fs.flatMap (fun f => f.tracks)).map
        (fun t => t.bank.msb * 128 + t.bank.lsb) := by
  induction fs with
  | nil => intro k; rfl
  | cons f rest ih =>
    intro k
    show (((folderTracksGen sup (k + 32) f.tracks).2.1 ++
      (foldersGen sup (folderTracksGen sup (k + 32) f.tracks).2.2 rest).2.1).map
        Prod.snd) = _
    rw [List.map_append, folderTracksGen_snd, ih, List.flatMap_cons, List.map_append]

theorem rppMappings_snd (sup : Supply) (config : ProjectConfig) :
    (rppMappings sup config).map Prod.snd =
      (allTracksOf config).map (fun t => t.bank.msb * 128 + t.bank.lsb) := by
  show (((match config.folders with
      | some fs => if 0 < fs.length then foldersGen sup 0 fs else ([], [], 0)
      | none => (([], [], 0) : List (List Piece) × List (String × Int) × Nat)).2.1 ++
    (standaloneTracksGen sup _ config.tracks).2.1).map Prod.snd) = _
  rw [List.map_append, standaloneTracksGen_snd]
  unfold allTracksOf
  rw [List.map_append]
  congr 1
  cases hf : config.folders with
  | none => rfl
  | some fs =>
    by_cases hl : 0 < fs.length
    · simp only [hl, if_pos, foldersGen_snd]
    · have : fs = [] := List.length_eq_zero.mp (by omega)
      subst this
      rfl

theorem renderP_append (a b : List Piece) :
    renderP (a ++ b) = renderP a ++ renderP b := by
  simp [renderP]

theorem renderLinesAux_mem {lps : List (List Piece)} {l : List Piece}
    (hl : l ∈ lps) :
    ∃ a b, renderP (renderLinesAux lps) = a ++ renderP l ++ b := by
  induction lps with
  | nil => cases hl
  | cons l0 rest ih =>
    rcases List.mem_cons.mp hl with rfl | hmem
    · cases rest with
      | nil => exact ⟨[], [], by simp [renderLinesAux]⟩
      | cons r t =>
        refine ⟨[], renderP (Piece.fx "\n" :: renderLinesAux (r :: t)), ?_⟩
        show renderP (l ++ Piece.fx "\n" :: renderLinesAux (r :: t)) = _
        rw [renderP_append]
        simp
    · have hrest : rest ≠ [] := by rintro rfl; cases hmem
      obtain ⟨a, b, hab⟩ := ih hmem
      cases rest with
      | nil => exact absurd rfl hrest
      | cons r t =>
        refine ⟨renderP l0 ++ '\n' :: a, b, ?_⟩
        show renderP (l0 ++ Piece.fx "\n" :: renderLinesAux (r :: t)) = _
        rw [renderP_append]
        show renderP l0 ++ ('\n' :: renderP (renderLinesAux (r :: t))) = _
        rw [hab]
        simp

/-- The all-zero digit supply, used for concrete runs. -/
def supZero : Supply := fun _ => ⟨0, by omega⟩

/-- The one-track request of claim C4: bank msb 1, lsb 2, named Test
Bank. -/
def testConfig : ProjectConfig :=
  ⟨"Test", 120, 48000, [⟨⟨1, 2, "Test Bank", []⟩, "Test Bank", none⟩], none⟩

theorem generateRPPparts_extstate_mem (sup : Supply) (config : ProjectConfig)
    (h : 0 < (rppMappings sup config).length) :
    [Piece.fx "  <EXTSTATE"] ∈ (generateRPPparts sup config).1 := by
  simp only [rppMappings, generateRPPparts] at h ⊢
  rw [if_pos h]
  simp

/-- Claim C4: for the one-track request with bank msb 1, lsb 2 the
generated project holds exactly one project-level extension-state
block whose mapping has exactly one entry with value 130, and in
general the project-level block is present whenever at least one track
carries a bank assignment and aggregates the bank-assignment values of
all tracks, folder tracks first, one entry per track. -/
theorem generateRPP_extstate_spec :
    (∀ sup : Supply,
      (rppMappings sup testConfig).map Prod.snd = [1 * 128 + 2] ∧
      ((generateRPPparts sup testConfig).1.filter
        (fun l => l = [Piece.fx "  <EXTSTATE"])).length = 1) ∧
    ([Piece.fx "      STATE \x7b\"msblsb_by_guid\":\x7b", Piece.fx "\"",
       Piece.idT "00000000-0000-0000-0000-000000000000", Piece.fx "\":130",
       Piece.fx "\x7d,\"gc_ok\":true\x7d"] ∈ (generateRPPparts supZero testConfig).1) ∧
    (∀ (sup : Supply) (config : ProjectConfig),
      (rppMappings sup config).map Prod.snd =
        (allTracksOf config).map (fun t => t.bank.msb * 128 + t.bank.lsb)) ∧
    (∀ (sup : Supply) (config : ProjectConfig), allTracksOf config ≠ [] →
      ∃ a b, (generateRPP sup config).data = a ++ "  <EXTSTATE".data ++ b) := by
  refine ⟨fun sup => ⟨rfl, rfl⟩, by decide, rppMappings_snd, ?_⟩
  intro sup config hne
  have hmapeq := rppMappings_snd sup config
  have hlen : (rppMappings sup config).length = (allTracksOf config).length := by
    have := congrArg List.length hmapeq
    simpa using this
  have hpos : 0 < (rppMappings sup config).length := by
    rcases List.exists_cons_of_ne_nil hne with ⟨t, ts, hts⟩
    rw [hlen, hts]
    simp
  obtain ⟨a, b, hab⟩ := renderLinesAux_mem (generateRPPparts_extstate_mem sup config hpos)
  exact ⟨a, b, hab⟩

/-- Witness for C4: the presence conjunct applied to the concrete
supply and request. -/
theorem generateRPP_extstate_spec_witness :
    ∃ a b, (generateRPP supZero testConfig).data = a ++ "  <EXTSTATE".data ++ b :=
  generateRPP_extstate_spec.2.2.2 supZero testConfig (by decide)

/-! ## Identifier scrubbing for the determinism claim.  The scrubber
walks the text left to right and replaces every identifier-shaped
token, a braced uppercase GUID or a lowercase hyphenated UUID, with
the fixed placeholder ID. -/

def hexU? (c : Char) : Bool := c.isDigit || ('A' ≤ c && c ≤ 'F')

def hexL? (c : Char) : Bool := c.isDigit || ('a' ≤ c && c ≤ 'f')

/-- Characters that can occur inside an identifier-shaped token. -/
def tokenChar (c : Char) : Bool :=
  c.isDigit || ('a' ≤ c && c ≤ 'f') || ('A' ≤ c && c ≤ 'F') ||
  c = '-' || c = '{' || c = '}'

def isLBr (c : Char) : Bool := c = '{'

def isRBr (c : Char) : Bool := c = '}'

def isDash (c : Char) : Bool := c = '-'

/-- Shape of a braced uppercase GUID: 38 character predicates. -/
def shapeG : List (Char → Bool) :=
  isLBr :: List.replicate 8 hexU? ++
  isDash :: List.replicate 4 hexU? ++
  isDash :: List.replicate 4 hexU? ++
  isDash :: List.replicate 4 hexU? ++
  isDash :: List.replicate 12 hexU? ++ [isRBr]

/-- Shape of a lowercase hyphenated UUID: 36 character predicates. -/
def shapeU : List (Char → Bool) :=
  List.replicate 8 hexL? ++
  isDash :: List.replicate 4 hexL? ++
  isDash :: List.replicate 4 hexL? ++
  isDash :: List.replicate 4 hexL? ++
  isDash :: List.replicate 12 hexL?

/-- Does the prefix of the text match every predicate of the shape in
order? -/
def matchShape : List (Char → Bool) → List Char → Bool
  | [], _ => true
  | _ :: _, [] => false
  | p :: ps, c :: cs => p c && matchShape ps cs

/-- Fueled scrubbing pass: at each position, a braced GUID or a
lowercase UUID starting there is replaced by the placeholder ID and
skipped, any other character is copied. -/
def stripF : Nat → List Char → List Char
  | 0, s => s
  | _ + 1, [] => []
  | f + 1, c :: cs =>
    if matchShape shapeG (c :: cs) then 'I' :: 'D' :: stripF f (cs.drop 37)
    else if matchShape shapeU (c :: cs) then 'I' :: 'D' :: stripF f (cs.drop 35)
    else c :: stripF f cs

/-- Replace every identifier-shaped token of a string with the
placeholder ID. -/
def stripIdents (s : String) : String := ⟨stripF s.data.length s.data⟩

theorem matchShape_take (sh : List (Char → Bool)) :
    ∀ xs ys : List Char, sh.length ≤ xs.length →
      matchShape sh (xs ++ ys) = matchShape sh xs := by
  induction sh with
  | nil => intro xs ys _; rfl
  | cons p ps ih =>
    intro xs ys hlen
    cases xs with
    | nil => simp at hlen
    | cons c cs =>
      show (p c && matchShape ps (cs ++ ys)) = (p c && matchShape ps cs)
      rw [ih cs ys (by simpa using hlen)]

theorem matchShape_false_of_short (sh : List (Char → Bool)) :
    ∀ xs : List Char, xs.length < sh.length → matchShape sh xs = false := by
  induction sh with
  | nil => intro xs h; simp at h
  | cons p ps ih =>
    intro xs h
    cases xs with
    | nil => rfl
    | cons c cs =>
      show (p c && matchShape ps cs) = false
      rw [ih cs (by simpa using h)]
      simp

theorem shapeG_token : ∀ p ∈ shapeG, ∀ c, p c = true → tokenChar c = true := by
  intro p hp c hc
  have key : p = isLBr ∨ p = isRBr ∨ p = isDash ∨ p = hexU? := by
    simp only [shapeG, List.mem_cons, List.mem_append, List.mem_replicate] at hp
    tauto
  rcases key with rfl | rfl | rfl | rfl
  · simp only [isLBr, decide_eq_true_eq] at hc
    subst hc; decide
  · simp only [isRBr, decide_eq_true_eq] at hc
    subst hc; decide
  · simp only [isDash, decide_eq_true_eq] at hc
    subst hc; decide
  · simp only [hexU?, Bool.or_eq_true, Bool.and_eq_true, decide_eq_true_eq] at hc
    simp only [tokenChar, Bool.or_eq_true, Bool.and_eq_true, decide_eq_true_eq]
    tauto

theorem shapeU_token : ∀ p ∈ shapeU, ∀ c, p c = true → tokenChar c = true := by
  intro p hp c hc
  have key : p = isDash ∨ p = hexL? := by
    simp only [shapeU, List.mem_cons, List.mem_append, List.mem_replicate] at hp
    tauto
  rcases key with rfl | rfl
  · simp only [isDash, decide_eq_true_eq] at hc
    subst hc; decide
  · simp only [hexL?, Bool.or_eq_true, Bool.and_eq_true, decide_eq_true_eq] at hc
    simp only [tokenChar, Bool.or_eq_true, Bool.and_eq_true, decide_eq_true_eq]
    tauto

theorem matchShape_token_idx (sh : List (Char → Bool))
    (hsh : ∀ p ∈ sh, ∀ c, p c = true → tokenChar c = true) :
    ∀ s : List Char, matchShape sh s = true →
      ∀ i, i < sh.length → tokenChar (s.getD i ' ') = true := by
  induction sh with
  | nil => intro s _ i hi; simp at hi
  | cons p ps ih =>
    intro s hm i hi
    cases s with
    | nil => simp [matchShape] at hm
    | cons c cs =>
      have hm2 : p c = true ∧ matchShape ps cs = true := by
        simpa [matchShape, Bool.and_eq_true] using hm
      cases i with
      | zero => exact hsh p (List.mem_cons_self _ _) c hm2.1
      | succ j =>
        have := ih (fun q hq => hsh q (List.mem_cons_of_mem _ hq)) cs hm2.2 j
          (by simpa using hi)
        simpa using this

/-- An identifier-shaped token: a braced uppercase GUID or a lowercase
hyphenated UUID, with its exact length. -/
def wfTokL (g : List Char) : Prop :=
  (matchShape shapeG g = true ∧ g.length = 38) ∨
  (matchShape shapeU g = true ∧ g.length = 36)

/-- Scrub congruence: two texts that agree except on well-formed
identifier tokens, each sitting right after a non-token character. -/
inductive SC : List Char → List Char → Prop
  | nil : SC [] []
  | cons (c : Char) {x y : List Char} : SC x y → SC (c :: x) (c :: y)
  | tok (d : Char) {g1 g2 x y : List Char} :
      tokenChar d = false → wfTokL g1 → wfTokL g2 → SC x y →
      SC (d :: (g1 ++ x)) (d :: (g2 ++ y))

theorem SC_appendLeft (l : List Char) {x y : List Char} (h : SC x y) :
    SC (l ++ x) (l ++ y) := by
  induction l with
  | nil => exact h
  | cons c cs ih => exact SC.cons c ih

theorem SC_matchAgree (sh : List (Char → Bool))
    (hsh : ∀ p ∈ sh, ∀ c, p c = true → tokenChar c = true) :
    ∀ {x y : List Char}, SC x y → matchShape sh x = matchShape sh y := by
  induction sh with
  | nil => intro x y _; rfl
  | cons p ps ih =>
    intro x y hsc
    cases hsc with
    | nil => rfl
    | cons c h' =>
      show (p c && matchShape ps _) = (p c && matchShape ps _)
      rw [ih (fun q hq => hsh q (List.mem_cons_of_mem _ hq)) h']
    | tok d hd hw1 hw2 h' =>
      show (p d && matchShape ps _) = (p d && matchShape ps _)
      have hpd : p d = false := by
        by_contra hne
        exact absurd (hsh p (List.mem_cons_self _ _) d
          (Bool.of_not_eq_false hne)) (by simp [hd])
      rw [hpd]
      simp

theorem SC_dropTok : ∀ n : Nat, ∀ {x y : List Char}, SC x y →
    (∀ i < n, tokenChar (x.getD i ' ') = true) → SC (x.drop n) (y.drop n) := by
  intro n
  induction n with
  | zero => intro x y h _; simpa using h
  | succ m ih =>
    intro x y hsc htok
    cases hsc with
    | nil => exact SC.nil
    | cons c h' =>
      show SC (List.drop m _) (List.drop m _)
      exact ih h' (fun i hi => by
        have := htok (i + 1) (by omega)
        simpa using this)
    | tok d hd hw1 hw2 h' =>
      exfalso
      have := htok 0 (by omega)
      simp at this
      rw [this] at hd
      cases hd

theorem matchShape_head {p : Char → Bool} {ps : List (Char → Bool)} {c : Char}
    {cs : List Char} (h : matchShape (p :: ps) (c :: cs) = true) : p c = true := by
  simp only [matchShape, Bool.and_eq_true] at h
  exact h.1

theorem matchShape_cons_false {p : Char → Bool} {ps : List (Char → Bool)} {c : Char}
    {cs : List Char} (h : p c = false) : matchShape (p :: ps) (c :: cs) = false := by
  simp [matchShape, h]

theorem matchShape_nonTok_head {sh : List (Char → Bool)}
    (hsh : ∀ p ∈ sh, ∀ c, p c = true → tokenChar c = true) (hlen : 0 < sh.length)
    {d : Char} (hd : tokenChar d = false) (l : List Char) :
    matchShape sh (d :: l) = false := by
  by_contra hne
  have htrue : matchShape sh (d :: l) = true := Bool.of_not_eq_false hne
  have := matchShape_token_idx sh hsh (d :: l) htrue 0 hlen
  simp at this
  rw [this] at hd
  cases hd

theorem shapeG_length : shapeG.length = 38 := by rfl

theorem shapeU_length : shapeU.length = 36 := by rfl

theorem stripF_tok (g rest : List Char) (hw : wfTokL g) (M : Nat)
    (hM : (g ++ rest).length ≤ M) :
    stripF M (g ++ rest) = 'I' :: 'D' :: stripF (M - 1) rest := by
  rcases hw with ⟨hmG, hlG⟩ | ⟨hmU, hlU⟩
  · cases g with
    | nil => simp at hlG
    | cons c g' =>
      have hg' : g'.length = 37 := by simpa using hlG
      have hM1 : 1 ≤ M := by
        have := hM
        simp at this
        omega
      obtain ⟨f, rfl⟩ : ∃ f, M = f + 1 := ⟨M - 1, by omega⟩
      have hmatch : matchShape shapeG ((c :: g') ++ rest) = true := by
        rw [matchShape_take shapeG (c :: g') rest (by simp [hlG, shapeG_length])]
        exact hmG
      show stripF (f + 1) (c :: (g' ++ rest)) = _
      simp only [stripF]
      rw [if_pos (by simpa using hmatch)]
      have hdrop : (g' ++ rest).drop 37 = rest := by
        rw [← hg', List.drop_left]
      rw [hdrop]
      simp
  · cases g with
    | nil => simp at hlU
    | cons c g' =>
      have hg' : g'.length = 35 := by simpa using hlU
      have hM1 : 1 ≤ M := by
        have := hM
        simp at this
        omega
      obtain ⟨f, rfl⟩ : ∃ f, M = f + 1 := ⟨M - 1, by omega⟩
      have hmatchU : matchShape shapeU ((c :: g') ++ rest) = true := by
        rw [matchShape_take shapeU (c :: g') rest (by simp [hlU, shapeU_length])]
        exact hmU
      have hc : hexL? c = true :=
        matchShape_head (show matchShape (hexL? :: _) (c :: g') = true from hmU)
      have hnotbrace : isLBr c = false := by
        by_contra hne
        have : c = '{' := by
          have := Bool.of_not_eq_false hne
          simpa [isLBr] using this
        rw [this] at hc
        cases hc
      have hmatchG : matchShape shapeG (c :: (g' ++ rest)) = false := by
        unfold shapeG
        exact matchShape_cons_false hnotbrace
      show stripF (f + 1) (c :: (g' ++ rest)) = _
      simp only [stripF]
      rw [if_neg (by simp [hmatchG]), if_pos (by simpa using hmatchU)]
      have hdrop : (g' ++ rest).drop 35 = rest := by
        rw [← hg', List.drop_left]
      rw [hdrop]
      simp

theorem SC_stripF : ∀ N : Nat, ∀ {x y : List Char}, SC x y →
    x.length ≤ N → y.length ≤ N → stripF N x = stripF N y := by
  intro N
  induction N using Nat.strong_induction_on with
  | _ N ih =>
    intro x y hsc hx hy
    cases hsc with
    | nil => rfl
    | @cons c x' y' h' =>
      obtain ⟨M, rfl⟩ : ∃ M, N = M + 1 := ⟨N - 1, by simp at hx; omega⟩
      have hG : matchShape shapeG (c :: x') = matchShape shapeG (c :: y') :=
        SC_matchAgree shapeG shapeG_token (SC.cons c h')
      have hU : matchShape shapeU (c :: x') = matchShape shapeU (c :: y') :=
        SC_matchAgree shapeU shapeU_token (SC.cons c h')
      have hx' : x'.length ≤ M := by simp at hx; omega
      have hy' : y'.length ≤ M := by simp at hy; omega
      simp only [stripF]
      by_cases hg : matchShape shapeG (c :: x') = true
      · rw [if_pos hg, if_pos (hG ▸ hg)]
        have htok : ∀ i < 37, tokenChar (x'.getD i ' ') = true := by
          intro i hi
          have := matchShape_token_idx shapeG shapeG_token (c :: x') hg (i + 1)
            (by rw [shapeG_length]; omega)
          simpa using this
        have hrec : stripF M (x'.drop 37) = stripF M (y'.drop 37) := by
          refine ih M (by omega) (SC_dropTok 37 h' htok) ?_ ?_
          · simp
            omega
          · simp
            omega
        rw [hrec]
      · have hgy : ¬ matchShape shapeG (c :: y') = true := by rw [← hG]; exact hg
        rw [if_neg hg, if_neg hgy]
        by_cases hu : matchShape shapeU (c :: x') = true
        · rw [if_pos hu, if_pos (hU ▸ hu)]
          have htok : ∀ i < 35, tokenChar (x'.getD i ' ') = true := by
            intro i hi
            have := matchShape_token_idx shapeU shapeU_token (c :: x') hu (i + 1)
              (by rw [shapeU_length]; omega)
            simpa using this
          have hrec : stripF M (x'.drop 35) = stripF M (y'.drop 35) := by
            refine ih M (by omega) (SC_dropTok 35 h' htok) ?_ ?_
            · simp
              omega
            · simp
              omega
          rw [hrec]
        · have huy : ¬ matchShape shapeU (c :: y') = true := by rw [← hU]; exact hu
          rw [if_neg hu, if_neg huy]
          rw [ih M (by omega) h' hx' hy']
    | @tok d g1 g2 x1 y1 hd hw1 hw2 h' =>
      have hg1len : g1.length = 38 ∨ g1.length = 36 := by
        rcases hw1 with ⟨_, h⟩ | ⟨_, h⟩
        · exact Or.inl h
        · exact Or.inr h
      have hg2len : g2.length = 38 ∨ g2.length = 36 := by
        rcases hw2 with ⟨_, h⟩ | ⟨_, h⟩
        · exact Or.inl h
        · exact Or.inr h
      obtain ⟨M, rfl⟩ : ∃ M, N = M + 1 := ⟨N - 1, by simp at hx; omega⟩
      have hGx : matchShape shapeG (d :: (g1 ++ x1)) = false :=
        matchShape_nonTok_head shapeG_token (by rw [shapeG_length]; omega) hd _
      have hUx : matchShape shapeU (d :: (g1 ++ x1)) = false :=
        matchShape_nonTok_head shapeU_token (by rw [shapeU_length]; omega) hd _
      have hGy : matchShape shapeG (d :: (g2 ++ y1)) = false :=
        matchShape_nonTok_head shapeG_token (by rw [shapeG_length]; omega) hd _
      have hUy : matchShape shapeU (d :: (g2 ++ y1)) = false :=
        matchShape_nonTok_head shapeU_token (by rw [shapeU_length]; omega) hd _
      simp only [stripF]
      rw [if_neg (by simp [hGx]), if_neg (by simp [hUx]),
          if_neg (by simp [hGy]), if_neg (by simp [hUy])]
      have hlen1 : (g1 ++ x1).length ≤ M := by
        simp at hx ⊢
        omega
      have hlen2 : (g2 ++ y1).length ≤ M := by
        simp at hy ⊢
        omega
      rw [stripF_tok g1 x1 hw1 M hlen1, stripF_tok g2 y1 hw2 M hlen2]
      have hx1 : x1.length ≤ M - 1 := by
        simp at hx
        omega
      have hy1 : y1.length ≤ M - 1 := by
        simp at hy
        omega
      rw [ih (M - 1) (by omega) h' hx1 hy1]

theorem stripF_nil : ∀ n, stripF n [] = [] := by
  intro n
  cases n <;> rfl

theorem stripF_fuel : ∀ n : Nat, ∀ (s : List Char) (m : Nat),
    s.length ≤ n → s.length ≤ m → stripF n s = stripF m s := by
  intro n
  induction n using Nat.strong_induction_on with
  | _ n ih =>
    intro s m hn hm
    cases s with
    | nil => rw [stripF_nil, stripF_nil]
    | cons c cs =>
      obtain ⟨a, rfl⟩ : ∃ a, n = a + 1 := ⟨n - 1, by simp at hn; omega⟩
      obtain ⟨b, rfl⟩ : ∃ b, m = b + 1 := ⟨m - 1, by simp at hm; omega⟩
      simp only [stripF]
      by_cases hg : matchShape shapeG (c :: cs) = true
      · rw [if_pos hg, if_pos hg]
        rw [ih a (by omega) (cs.drop 37) b (by simp at hn ⊢; omega)
          (by simp at hm ⊢; omega)]
      · rw [if_neg hg, if_neg hg]
        by_cases hu : matchShape shapeU (c :: cs) = true
        · rw [if_pos hu, if_pos hu]
          rw [ih a (by omega) (cs.drop 35) b (by simp at hn ⊢; omega)
            (by simp at hm ⊢; omega)]
        · rw [if_neg hu, if_neg hu]
          rw [ih a (by omega) cs b (by simp at hn; omega) (by simp at hm; omega)]

theorem SC_stripIdents {x y : List Char} (h : SC x y) :
    stripF x.length x = stripF y.length y := by
  calc stripF x.length x
      = stripF (max x.length y.length) x :=
        stripF_fuel x.length x (max x.length y.length) (le_refl _) (le_max_left _ _)
    _ = stripF (max x.length y.length) y :=
        SC_stripF (max x.length y.length) h (le_max_left _ _) (le_max_right _ _)
    _ = stripF y.length y :=
        stripF_fuel (max x.length y.length) y y.length (le_max_right _ _) (le_refl _)

/-- Does the string end in a character that cannot occur inside an
identifier token? -/
def endsNonTokB (s : String) : Bool :=
  match s.data.getLast? with
  | some d => !(tokenChar d)
  | none => false

/-- Piece-list congruence: the lists are equal except for identifier
payloads, every identifier piece is a well-formed token, and the fixed
piece in front of each identifier ends in a non-token character. -/
inductive PEq : List Piece → List Piece → Prop
  | nil : PEq [] []
  | fx (s : String) {t1 t2 : List Piece} : PEq t1 t2 →
      PEq (.fx s :: t1) (.fx s :: t2)
  | idp (f g1 g2 : String) {t1 t2 : List Piece} :
      endsNonTokB f = true → wfTokL g1.data → wfTokL g2.data → PEq t1 t2 →
      PEq (.fx f :: .idT g1 :: t1) (.fx f :: .idT g2 :: t2)

theorem PEq_append {a1 a2 b1 b2 : List Piece} (ha : PEq a1 a2) (hb : PEq b1 b2) :
    PEq (a1 ++ b1) (a2 ++ b2) := by
  induction ha with
  | nil => exact hb
  | fx s _ ih => exact PEq.fx s ih
  | idp f g1 g2 hf hw1 hw2 _ ih => exact PEq.idp f g1 g2 hf hw1 hw2 ih

theorem getLast?_split {l : List Char} {d : Char} (h : l.getLast? = some d) :
    ∃ f, l = f ++ [d] := by
  induction l with
  | nil => cases h
  | cons a t ih =>
    cases t with
    | nil =>
      simp [List.getLast?] at h
      exact ⟨[], by rw [h]; rfl⟩
    | cons b t' =>
      have h2 : (b :: t').getLast? = some d := by
        rwa [List.getLast?_cons_cons] at h
      obtain ⟨f, hf⟩ := ih h2
      exact ⟨a :: f, by rw [List.cons_append, ← hf]⟩

theorem PEq_SC {p1 p2 : List Piece} (h : PEq p1 p2) : SC (renderP p1) (renderP p2) := by
  induction h with
  | nil => exact SC.nil
  | fx s _ ih =>
    show SC (s.data ++ renderP _) (s.data ++ renderP _)
    exact SC_appendLeft s.data ih
  | idp f g1 g2 hf hw1 hw2 _ ih =>
    show SC (f.data ++ (g1.data ++ renderP _)) (f.data ++ (g2.data ++ renderP _))
    have hd : ∃ d, f.data.getLast? = some d ∧ tokenChar d = false := by
      unfold endsNonTokB at hf
      cases hlast : f.data.getLast? with
      | none => rw [hlast] at hf; cases hf
      | some d =>
        rw [hlast] at hf
        exact ⟨d, rfl, by simpa using hf⟩
    obtain ⟨d, hlast, hdtok⟩ := hd
    obtain ⟨f', hf'⟩ := getLast?_split hlast
    rw [hf']
    simp only [List.append_assoc, List.singleton_append]
    exact SC_appendLeft f' (SC.tok d hdtok hw1 hw2 ih)

/-- Line-list congruence. -/
inductive LEq : List (List Piece) → List (List Piece) → Prop
  | nil : LEq [] []
  | line {l1 l2 : List Piece} {t1 t2 : List (List Piece)} :
      PEq l1 l2 → LEq t1 t2 → LEq (l1 :: t1) (l2 :: t2)

theorem LEq_append {a1 a2 b1 b2 : List (List Piece)} (ha : LEq a1 a2)
    (hb : LEq b1 b2) : LEq (a1 ++ b1) (a2 ++ b2) := by
  induction ha with
  | nil => exact hb
  | line hl _ ih => exact LEq.line hl ih

theorem LEq_renderAux {L1 L2 : List (List Piece)} (h : LEq L1 L2) :
    PEq (renderLinesAux L1) (renderLinesAux L2) := by
  induction h with
  | nil => exact PEq.nil
  | @line l1 l2 t1 t2 hline htail ih =>
    cases htail with
    | nil => exact hline
    | line h2 hL2 =>
      show PEq (l1 ++ Piece.fx "\n" :: renderLinesAux _)
        (l2 ++ Piece.fx "\n" :: renderLinesAux _)
      exact PEq_append hline (PEq.fx "\n" ih)

theorem matchShape_cons (p : Char → Bool) (ps : List (Char → Bool)) (c : Char)
    (cs : List Char) : matchShape (p :: ps) (c :: cs) = (p c && matchShape ps cs) := rfl

theorem matchShape_replicate_append (p : Char → Bool) (sh : List (Char → Bool)) :
    ∀ xs rest : List Char, (∀ c ∈ xs, p c = true) →
      matchShape (List.replicate xs.length p ++ sh) (xs ++ rest) = matchShape sh rest := by
  intro xs
  induction xs with
  | nil => intro rest _; rfl
  | cons c cs ih =>
    intro rest hall
    show (p c && matchShape (List.replicate cs.length p ++ sh) (cs ++ rest)) = _
    rw [hall c (List.mem_cons_self _ _),
      ih rest (fun d hd => hall d (List.mem_cons_of_mem _ hd)), Bool.true_and]

theorem hexSeg_length (h : Fin 16 → Char) (sup : Supply) (k n : Nat) :
    (hexSeg h sup k n).length = n := by
  simp [hexSeg]

theorem hexSeg_all (p : Char → Bool) (h : Fin 16 → Char)
    (hp : ∀ d : Fin 16, p (h d) = true) (sup : Supply) (k n : Nat) :
    ∀ c ∈ hexSeg h sup k n, p c = true := by
  intro c hc
  simp only [hexSeg, List.mem_map, List.mem_range] at hc
  obtain ⟨i, _, rfl⟩ := hc
  exact hp _

theorem hexDigitU_hex : ∀ d : Fin 16, hexU? (hexDigitU d) = true := by decide

theorem hexDigitL_hex : ∀ d : Fin 16, hexL? (hexDigitL d) = true := by decide

theorem matchShape_segU (n : Nat) (sh : List (Char → Bool)) (sup : Supply)
    (k : Nat) (rest : List Char) :
    matchShape (List.replicate n hexU? ++ sh) (hexSeg hexDigitU sup k n ++ rest) =
      matchShape sh rest := by
  have h := matchShape_replicate_append hexU? sh (hexSeg hexDigitU sup k n) rest
    (hexSeg_all hexU? hexDigitU hexDigitU_hex sup k n)
  rwa [hexSeg_length] at h

theorem matchShape_segL (n : Nat) (sh : List (Char → Bool)) (sup : Supply)
    (k : Nat) (rest : List Char) :
    matchShape (List.replicate n hexL? ++ sh) (hexSeg hexDigitL sup k n ++ rest) =
      matchShape sh rest := by
  have h := matchShape_replicate_append hexL? sh (hexSeg hexDigitL sup k n) rest
    (hexSeg_all hexL? hexDigitL hexDigitL_hex sup k n)
  rwa [hexSeg_length] at h

theorem matchShape_segL_last (n : Nat) (sup : Supply) (k : Nat) :
    matchShape (List.replicate n hexL?) (hexSeg hexDigitL sup k n) = true := by
  have h := matchShape_segL n [] sup k []
  simpa [matchShape] using h

theorem generateGUID_shape (sup : Supply) (k : Nat) :
    matchShape shapeG (generateGUID sup k).data = true := by
  show matchShape shapeG
    ('{' :: hexSeg hexDigitU sup k 8 ++ '-' :: hexSeg hexDigitU sup (k + 8) 4 ++
     '-' :: hexSeg hexDigitU sup (k + 12) 4 ++ '-' :: hexSeg hexDigitU sup (k + 16) 4 ++
     '-' :: hexSeg hexDigitU sup (k + 20) 12 ++ ['}']) = true
  simp only [shapeG, List.append_assoc, List.cons_append]
  simp only [matchShape_cons, matchShape_segU]
  decide

theorem generateReaticulateGUID_shape (sup : Supply) (k : Nat) :
    matchShape shapeU (generateReaticulateGUID sup k).data = true := by
  show matchShape shapeU
    (hexSeg hexDigitL sup k 8 ++ '-' :: hexSeg hexDigitL sup (k + 8) 4 ++
     '-' :: hexSeg hexDigitL sup (k + 12) 4 ++ '-' :: hexSeg hexDigitL sup (k + 16) 4 ++
     '-' :: hexSeg hexDigitL sup (k + 20) 12) = true
  simp only [shapeU, List.append_assoc, List.cons_append]
  simp only [matchShape_cons, matchShape_segL, matchShape_segL_last]
  decide

theorem generateGUID_length (sup : Supply) (k : Nat) :
    (generateGUID sup k).data.length = 38 := by
  show ('{' :: hexSeg hexDigitU sup k 8 ++ '-' :: hexSeg hexDigitU sup (k + 8) 4 ++
     '-' :: hexSeg hexDigitU sup (k + 12) 4 ++ '-' :: hexSeg hexDigitU sup (k + 16) 4 ++
     '-' :: hexSeg hexDigitU sup (k + 20) 12 ++ ['}']).length = 38
  simp [hexSeg_length]

theorem generateReaticulateGUID_length (sup : Supply) (k : Nat) :
    (generateReaticulateGUID sup k).data.length = 36 := by
  show (hexSeg hexDigitL sup k 8 ++ '-' :: hexSeg hexDigitL sup (k + 8) 4 ++
     '-' :: hexSeg hexDigitL sup (k + 12) 4 ++ '-' :: hexSeg hexDigitL sup (k + 16) 4 ++
     '-' :: hexSeg hexDigitL sup (k + 20) 12).length = 36
  simp [hexSeg_length]

/-- Every braced uppercase GUID the generator emits is a well-formed
identifier token. -/
theorem wfTok_guid (sup : Supply) (k : Nat) : wfTokL (generateGUID sup k).data :=
  Or.inl ⟨generateGUID_shape sup k, generateGUID_length sup k⟩

/-- Every lowercase hyphenated UUID the generator emits is a
well-formed identifier token. -/
theorem wfTok_ruid (sup : Supply) (k : Nat) :
    wfTokL (generateReaticulateGUID sup k).data :=
  Or.inr ⟨generateReaticulateGUID_shape sup k, generateReaticulateGUID_length sup k⟩

theorem PEq_fx1 (s : String) : PEq [.fx s] [.fx s] := PEq.fx s PEq.nil

theorem PEq_id2 (g1 g2 : String) {f : String} (hf : endsNonTokB f = true)
    (h1 : wfTokL g1.data) (h2 : wfTokL g2.data) :
    PEq [.fx f, .idT g1] [.fx f, .idT g2] := PEq.idp f g1 g2 hf h1 h2 PEq.nil

theorem PEq_id3 (g1 g2 p : String) {f : String} (hf : endsNonTokB f = true)
    (h1 : wfTokL g1.data) (h2 : wfTokL g2.data) :
    PEq [.fx f, .idT g1, .fx p] [.fx f, .idT g2, .fx p] :=
  PEq.idp f g1 g2 hf h1 h2 (PEq_fx1 p)

/-- Two runs of one track block over different supplies emit congruent
lines: identical fixed text, well-formed identifier tokens at the same
spots. -/
theorem LEq_generateTrackBlock (sup1 sup2 : Supply) (k1 k2 : Nat)
    (t : TrackConfig) (fd : Nat) :
    LEq (generateTrackBlock sup1 k1 t fd).1 (generateTrackBlock sup2 k2 t fd).1 := by
  simp only [generateTrackBlock]
  repeat
    first
    | exact LEq.nil
    | exact wfTok_guid _ _
    | exact wfTok_ruid _ _
    | decide
    | refine LEq.line (PEq_fx1 _) ?_
    | refine LEq.line (PEq_id2 _ _ ?_ ?_ ?_) ?_
    | refine LEq.line (PEq_id3 _ _ _ ?_ ?_ ?_) ?_
    | split

/-- Two runs of one folder header block over different supplies emit
congruent lines. -/
theorem LEq_folderTrackLines (sup1 sup2 : Supply) (k1 k2 : Nat)
    (f : FolderConfig) :
    LEq (folderTrackLines sup1 k1 f) (folderTrackLines sup2 k2 f) := by
  simp only [folderTrackLines]
  repeat
    first
    | exact LEq.nil
    | exact wfTok_guid _ _
    | decide
    | refine LEq.line (PEq_fx1 _) ?_
    | refine LEq.line (PEq_id2 _ _ ?_ ?_ ?_) ?_

theorem LEq_folderTracksGen (sup1 sup2 : Supply) (ts : List TrackConfig) :
    ∀ k1 k2, LEq (folderTracksGen sup1 k1 ts).1 (folderTracksGen sup2 k2 ts).1 := by
  induction ts with
  | nil => intro k1 k2; exact LEq.nil
  | cons t rest ih =>
    intro k1 k2
    show LEq ((generateTrackBlock sup1 k1 t _).1 ++
        (folderTracksGen sup1 (k1 + 128) rest).1)
      ((generateTrackBlock sup2 k2 t _).1 ++
        (folderTracksGen sup2 (k2 + 128) rest).1)
    exact LEq_append (LEq_generateTrackBlock sup1 sup2 k1 k2 t _) (ih _ _)

theorem LEq_foldersGen (sup1 sup2 : Supply) (fs : List FolderConfig) :
    ∀ k1 k2, LEq (foldersGen sup1 k1 fs).1 (foldersGen sup2 k2 fs).1 := by
  induction fs with
  | nil => intro k1 k2; exact LEq.nil
  | cons f rest ih =>
    intro k1 k2
    show LEq (folderTrackLines sup1 k1 f ++
        (folderTracksGen sup1 (k1 + 32) f.tracks).1 ++
        (foldersGen sup1 (folderTracksGen sup1 (k1 + 32) f.tracks).2.2 rest).1)
      (folderTrackLines sup2 k2 f ++
        (folderTracksGen sup2 (k2 + 32) f.tracks).1 ++
        (foldersGen sup2 (folderTracksGen sup2 (k2 + 32) f.tracks).2.2 rest).1)
    exact LEq_append (LEq_append (LEq_folderTrackLines sup1 sup2 k1 k2 f)
      (LEq_folderTracksGen sup1 sup2 f.tracks _ _)) (ih _ _)

theorem LEq_standaloneTracksGen (sup1 sup2 : Supply) (ts : List TrackConfig) :
    ∀ k1 k2, LEq (standaloneTracksGen sup1 k1 ts).1
      (standaloneTracksGen sup2 k2 ts).1 := by
  induction ts with
  | nil => intro k1 k2; exact LEq.nil
  | cons t rest ih =>
    intro k1 k2
    show LEq ((generateTrackBlock sup1 k1 t 0).1 ++
        (standaloneTracksGen sup1 (k1 + 128) rest).1)
      ((generateTrackBlock sup2 k2 t 0).1 ++
        (standaloneTracksGen sup2 (k2 + 128) rest).1)
    exact LEq_append (LEq_generateTrackBlock sup1 sup2 k1 k2 t 0) (ih _ _)

theorem LEq_rppHeaderLines (config : ProjectConfig) :
    LEq (rppHeaderLines config) (rppHeaderLines config) := by
  simp only [rppHeaderLines]
  repeat
    first
    | exact LEq.nil
    | refine LEq.line (PEq_fx1 _) ?_

theorem generateTrackBlock_fst_wf (sup : Supply) (k : Nat) (t : TrackConfig)
    (fd : Nat) : wfTokL (generateTrackBlock sup k t fd).2.1.data :=
  wfTok_ruid sup (k + 96)

theorem folderTracksGen_fst_wf (sup : Supply) (ts : List TrackConfig) :
    ∀ k, ∀ p ∈ (folderTracksGen sup k ts).2.1, wfTokL p.1.data := by
  induction ts with
  | nil =>
    intro k p hp
    have hp2 : p ∈ ([] : List (String × Int)) := hp
    cases hp2
  | cons t rest ih =>
    intro k p hp
    have hp2 : p ∈ (generateTrackBlock sup k t (if rest = [] then 2 else 0)).2 ::
        (folderTracksGen sup (k + 128) rest).2.1 := hp
    rcases List.mem_cons.mp hp2 with rfl | hmem
    · exact generateTrackBlock_fst_wf sup k t _
    · exact ih (k + 128) p hmem

theorem foldersGen_fst_wf (sup : Supply) (fs : List FolderConfig) :
    ∀ k, ∀ p ∈ (foldersGen sup k fs).2.1, wfTokL p.1.data := by
  induction fs with
  | nil =>
    intro k p hp
    have hp2 : p ∈ ([] : List (String × Int)) := hp
    cases hp2
  | cons f rest ih =>
    intro k p hp
    have hp2 : p ∈ (folderTracksGen sup (k + 32) f.tracks).2.1 ++
        (foldersGen sup (folderTracksGen sup (k + 32) f.tracks).2.2 rest).2.1 := hp
    rcases List.mem_append.mp hp2 with hmem | hmem
    · exact folderTracksGen_fst_wf sup f.tracks _ p hmem
    · exact ih _ p hmem

theorem standaloneTracksGen_fst_wf (sup : Supply) (ts : List TrackConfig) :
    ∀ k, ∀ p ∈ (standaloneTracksGen sup k ts).2.1, wfTokL p.1.data := by
  induction ts with
  | nil =>
    intro k p hp
    have hp2 : p ∈ ([] : List (String × Int)) := hp
    cases hp2
  | cons t rest ih =>
    intro k p hp
    have hp2 : p ∈ (generateTrackBlock sup k t 0).2 ::
        (standaloneTracksGen sup (k + 128) rest).2.1 := hp
    rcases List.mem_cons.mp hp2 with rfl | hmem
    · exact generateTrackBlock_fst_wf sup k t 0
    · exact ih (k + 128) p hmem

/-- The folder phase result inside generateRPPparts. -/
def fResOf (sup : Supply) (config : ProjectConfig) :
    List (List Piece) × List (String × Int) × Nat :=
  match config.folders with
  | some fs => if 0 < fs.length then foldersGen sup 0 fs else ([], [], 0)
  | none => ([], [], 0)

/-- The standalone phase result inside generateRPPparts. -/
def tResOf (sup : Supply) (config : ProjectConfig) :
    List (List Piece) × List (String × Int) × Nat :=
  standaloneTracksGen sup (fResOf sup config).2.2 config.tracks

theorem rppMappings_fst_wf (sup : Supply) (config : ProjectConfig) :
    ∀ p ∈ rppMappings sup config, wfTokL p.1.data := by
  intro p hp
  have hp2 : p ∈ (fResOf sup config).2.1 ++ (tResOf sup config).2.1 := hp
  rcases List.mem_append.mp hp2 with h | h
  · unfold fResOf at h
    rcases hcf : config.folders with _ | fs
    · rw [hcf] at h
      have h2 : p ∈ ([] : List (String × Int)) := h
      cases h2
    · rw [hcf] at h
      have h3 : p ∈ (if 0 < fs.length then foldersGen sup 0 fs
          else (([], [], 0) : List (List Piece) × List (String × Int) × Nat)).2.1 := h
      by_cases hl : 0 < fs.length
      · rw [if_pos hl] at h3
        exact foldersGen_fst_wf sup fs 0 p h3
      · rw [if_neg hl] at h3
        have h2 : p ∈ ([] : List (String × Int)) := h3
        cases h2
  · exact standaloneTracksGen_fst_wf sup config.tracks _ p h

/-- Folding the mapping entries into the JavaScript object keeps them
in order when no key repeats: with distinct keys no entry is ever
overwritten. -/
theorem foldl_objInsert_eq : ∀ (m acc : List (String × Int)),
    ((acc ++ m).map Prod.fst).Nodup →
    m.foldl (fun a q => objInsert a q.1 q.2) acc = acc ++ m := by
  intro m
  induction m with
  | nil => intro acc _; simp
  | cons p rest ih =>
    intro acc hnd
    have hsplit : ((acc.map Prod.fst) ++ (p.1 :: rest.map Prod.fst)).Nodup := by
      simpa using hnd
    have hdis := (List.nodup_append.mp hsplit).2.2
    have hnotin : ∀ q ∈ acc, ¬ q.1 = p.1 := by
      intro q hq hqp
      exact hdis (List.mem_map_of_mem Prod.fst hq)
        (hqp ▸ List.mem_cons_self p.1 (rest.map Prod.fst))
    have hany : acc.any (fun q => q.1 = p.1) = false := by
      rw [List.any_eq_false]
      intro q hq
      simp only [decide_eq_true_eq]
      exact hnotin q hq
    have hobj : objInsert acc p.1 p.2 = acc ++ [p] := by
      unfold objInsert
      rw [if_neg (by simp [hany])]
    show rest.foldl (fun a q => objInsert a q.1 q.2) (objInsert acc p.1 p.2) = _
    rw [hobj, ih (acc ++ [p]) (by simpa using hnd)]
    simp

/-- The pieces of the msblsb_by_guid JSON body agree up to the
identifier keys when the values line up and all keys are well-formed
tokens. -/
theorem PEq_entriesPieces : ∀ m1 m2 : List (String × Int),
    m1.map Prod.snd = m2.map Prod.snd →
    (∀ p ∈ m1, wfTokL p.1.data) → (∀ p ∈ m2, wfTokL p.1.data) →
    PEq (entriesPieces m1) (entriesPieces m2) := by
  intro m1
  induction m1 with
  | nil =>
    intro m2 h _ _
    cases m2 with
    | nil => exact PEq.nil
    | cons b t2 => simp at h
  | cons a t ih =>
    intro m2 h hw1 hw2
    cases m2 with
    | nil => simp at h
    | cons b t2 =>
      obtain ⟨g1, v1⟩ := a
      obtain ⟨g2, v2⟩ := b
      have hv : v1 = v2 ∧ t.map Prod.snd = t2.map Prod.snd := by simpa using h
      obtain ⟨rfl, htl⟩ := hv
      have hwa : wfTokL g1.data := hw1 _ (List.mem_cons_self _ _)
      have hwb : wfTokL g2.data := hw2 _ (List.mem_cons_self _ _)
      cases t with
      | nil =>
        cases t2 with
        | nil => exact PEq.idp "\"" g1 g2 (by decide) hwa hwb (PEq_fx1 _)
        | cons c t2' => simp at htl
      | cons c t' =>
        cases t2 with
        | nil => simp at htl
        | cons d t2' =>
          show PEq (Piece.fx "\"" :: Piece.idT g1 ::
              Piece.fx ("\":" ++ toString v1) :: Piece.fx "," :: entriesPieces (c :: t'))
            (Piece.fx "\"" :: Piece.idT g2 ::
              Piece.fx ("\":" ++ toString v1) :: Piece.fx "," :: entriesPieces (d :: t2'))
          exact PEq.idp "\"" g1 g2 (by decide) hwa hwb
            (PEq.fx _ (PEq.fx "," (ih (d :: t2') htl
              (fun p hp => hw1 p (List.mem_cons_of_mem _ hp))
              (fun p hp => hw2 p (List.mem_cons_of_mem _ hp)))))

/-- Two generator runs over different supplies, with distinct bank
identifiers each, produce congruent line lists. -/
theorem LEq_generateRPPparts (sup1 sup2 : Supply) (config : ProjectConfig)
    (h1 : ((rppMappings sup1 config).map Prod.fst).Nodup)
    (h2 : ((rppMappings sup2 config).map Prod.fst).Nodup) :
    LEq (generateRPPparts sup1 config).1 (generateRPPparts sup2 config).1 := by
  have hfold1 : (rppMappings sup1 config).foldl
      (fun a q => objInsert a q.1 q.2) [] = rppMappings sup1 config := by
    have h := foldl_objInsert_eq (rppMappings sup1 config) [] (by simpa using h1)
    simpa using h
  have hfold2 : (rppMappings sup2 config).foldl
      (fun a q => objInsert a q.1 q.2) [] = rppMappings sup2 config := by
    have h := foldl_objInsert_eq (rppMappings sup2 config) [] (by simpa using h2)
    simpa using h
  have hwf1 := rppMappings_fst_wf sup1 config
  have hwf2 := rppMappings_fst_wf sup2 config
  have hsnd : (rppMappings sup1 config).map Prod.snd =
      (rppMappings sup2 config).map Prod.snd := by
    rw [rppMappings_snd, rppMappings_snd]
  have hlen : (rppMappings sup1 config).length =
      (rppMappings sup2 config).length := by
    have h := congrArg List.length hsnd
    simpa using h
  show LEq
    (rppHeaderLines config ++ (fResOf sup1 config).1 ++ (tResOf sup1 config).1 ++
      [[.fx "  <EXTENSIONS"], [.fx "  >"]] ++
      (if 0 < (rppMappings sup1 config).length then
        [[.fx "  <EXTSTATE"],
         [.fx "    <REATICULATE"],
         [.fx "      CHANGE_COOKIE ",
          .idT (generateReaticulateGUID sup1 (tResOf sup1 config).2.2)],
         [.fx "      STATE \x7b\"msblsb_by_guid\":\x7b"] ++
           entriesPieces ((rppMappings sup1 config).foldl
             (fun a q => objInsert a q.1 q.2) []) ++
           [Piece.fx "\x7d,\"gc_ok\":true\x7d"],
         [.fx "    >"],
         [.fx "  >"]]
       else []) ++ [[.fx ">"]])
    (rppHeaderLines config ++ (fResOf sup2 config).1 ++ (tResOf sup2 config).1 ++
      [[.fx "  <EXTENSIONS"], [.fx "  >"]] ++
      (if 0 < (rppMappings sup2 config).length then
        [[.fx "  <EXTSTATE"],
         [.fx "    <REATICULATE"],
         [.fx "      CHANGE_COOKIE ",
          .idT (generateReaticulateGUID sup2 (tResOf sup2 config).2.2)],
         [.fx "      STATE \x7b\"msblsb_by_guid\":\x7b"] ++
           entriesPieces ((rppMappings sup2 config).foldl
             (fun a q => objInsert a q.1 q.2) []) ++
           [Piece.fx "\x7d,\"gc_ok\":true\x7d"],
         [.fx "    >"],
         [.fx "  >"]]
       else []) ++ [[.fx ">"]])
  refine LEq_append (LEq_append (LEq_append (LEq_append
    (LEq_append ?hH ?hF) ?hT) ?hE) ?hS) ?hL
  case hH => exact LEq_rppHeaderLines config
  case hF =>
    unfold fResOf
    rcases config.folders with _ | fs
    · exact LEq.nil
    · show LEq (if 0 < fs.length then foldersGen sup1 0 fs
          else (([], [], 0) : List (List Piece) × List (String × Int) × Nat)).1
        (if 0 < fs.length then foldersGen sup2 0 fs
          else (([], [], 0) : List (List Piece) × List (String × Int) × Nat)).1
      by_cases hl : 0 < fs.length
      · rw [if_pos hl, if_pos hl]
        exact LEq_foldersGen sup1 sup2 fs 0 0
      · rw [if_neg hl, if_neg hl]
        exact LEq.nil
  case hT =>
    exact LEq_standaloneTracksGen sup1 sup2 config.tracks
      (fResOf sup1 config).2.2 (fResOf sup2 config).2.2
  case hE => exact LEq.line (PEq_fx1 _) (LEq.line (PEq_fx1 _) LEq.nil)
  case hS =>
    by_cases hpos : 0 < (rppMappings sup1 config).length
    · have hpos2 : 0 < (rppMappings sup2 config).length := by
        rw [← hlen]; exact hpos
      rw [if_pos hpos, if_pos hpos2, hfold1, hfold2]
      refine LEq.line (PEq_fx1 _) (LEq.line (PEq_fx1 _) (LEq.line ?_
        (LEq.line ?_ (LEq.line (PEq_fx1 _) (LEq.line (PEq_fx1 _) LEq.nil)))))
      · exact PEq_id2 _ _ (by decide) (wfTok_ruid _ _) (wfTok_ruid _ _)
      · exact PEq_append (PEq_append (PEq_fx1 _)
          (PEq_entriesPieces _ _ hsnd hwf1 hwf2)) (PEq_fx1 _)
    · have hpos2 : ¬ 0 < (rppMappings sup2 config).length := by
        rw [← hlen]; exact hpos
      rw [if_neg hpos, if_neg hpos2]
      exact LEq.nil
  case hL => exact LEq.line (PEq_fx1 _) LEq.nil

/-- The all-one digit supply, a second concrete identifier stream. -/
def supOne : Supply := fun _ => ⟨1, by omega⟩

/-- Claim C5: generateRPP is deterministic modulo identifier
generation.  Two runs on the same configuration over any two digit
supplies — each run drawing, as the spec puts it, freshly generated
unique identifiers, so that the collected bank identifiers of a run
are distinct — yield texts that agree byte for byte once every
identifier-shaped token (a braced uppercase GUID or a lowercase
hyphenated UUID) is replaced by the fixed placeholder. -/
theorem generateRPP_deterministic_modulo_ids (config : ProjectConfig)
    (sup1 sup2 : Supply)
    (h1 : ((rppMappings sup1 config).map Prod.fst).Nodup)
    (h2 : ((rppMappings sup2 config).map Prod.fst).Nodup) :
    stripIdents (generateRPP sup1 config) = stripIdents (generateRPP sup2 config) := by
  have hsc : SC (generateRPP sup1 config).data (generateRPP sup2 config).data :=
    PEq_SC (LEq_renderAux (LEq_generateRPPparts sup1 sup2 config h1 h2))
  unfold stripIdents
  exact congrArg String.mk (SC_stripIdents hsc)

/-- Witness for C5: the one-track request, run over the all-zero and
the all-one digit supplies. -/
theorem generateRPP_deterministic_modulo_ids_witness :
    ((rppMappings supZero testConfig).map Prod.fst).Nodup ∧
    ((rppMappings supOne testConfig).map Prod.fst).Nodup ∧
    stripIdents (generateRPP supZero testConfig) =
      stripIdents (generateRPP supOne testConfig) :=
  ⟨by decide, by decide,
   generateRPP_deterministic_modulo_ids testConfig supZero supOne
     (by decide) (by decide)⟩
